import Mathlib

/-!
Shallow embedding of the partial-header image prober of `zencodecs`
(`src/probe.rs`, `src/format.rs`, `src/info.rs`, `src/registry.rs`).

Byte slices are `List (Fin 256)`.  Rust slice indexing `data[i]`, which
panics when `i` is out of bounds, is modelled by `rd` in the `Run`
monad: `Run.panic` is an out-of-bounds access, `Run.fuelOut` marks
exhaustion of the explicit fuel given to the embedded loops, and
`Run.ok` is a normal return.  Loops (`find_box`'s box walk and
`probe_jpeg`'s marker scan) are embedded with an explicit fuel
parameter; fuel is consumed only when a loop actually iterates, so
`Run.fuelOut` never occurs once the fuel exceeds the input length
(proved below).

Machine integers are `Nat`.  The `usize` additions of `find_box`
that can exceed `2^64` are reduced modulo `2^64` (`USIZE`), the
wrapping semantics of a release build on the 64-bit target; all
other arithmetic in the prober stays far below `2^64` for inputs
that fit in an address space.  Under these semantics probing is not
panic-free: a box declaring a huge 64-bit extended size moves the
walk to a wrapped position beyond the input, and the next iteration
indexes out of bounds (a debug build panics one step earlier, on the
overflowing add); this is proved below at concrete inputs.
-/

namespace Zencodecs

/-- A byte of the input stream. -/
abbrev Byte := Fin 256

/-- Supported image formats (`ImageFormat` in `format.rs`). -/
inductive ImageFormat where
  | Jpeg
  | WebP
  | Gif
  | Png
  | Avif
  | Jxl
deriving DecidableEq

/-- Result of probing partial image data (`ProbeResult` in `probe.rs`).
Machine integers `u32`/`u8`/`usize` are modelled by `Nat`. -/
structure ProbeResult where
  format : ImageFormat
  width : Option Nat
  height : Option Nat
  has_alpha : Option Bool
  has_animation : Option Bool
  frame_count : Option Nat
  bit_depth : Option Nat
  bytes_examined : Nat
deriving DecidableEq

/-- Outcome of running an embedded parser: `panic` models an
out-of-bounds slice index, `fuelOut` exhaustion of the loop fuel,
`ok` a normal return value. -/
inductive Run (α : Type) where
  | panic : Run α
  | fuelOut : Run α
  | ok : α → Run α
deriving DecidableEq

namespace Run

def bind : Run α → (α → Run β) → Run β
  | .panic, _ => .panic
  | .fuelOut, _ => .fuelOut
  | .ok a, f => f a

def isPanic : Run α → Bool
  | .panic => true
  | _ => false

def isFuelOut : Run α → Bool
  | .fuelOut => true
  | _ => false

def isOk : Run α → Bool
  | .ok _ => true
  | _ => false

end Run

/-- Rust slice indexing `data[i]`: the element when `i` is in bounds,
a panic otherwise. -/
def rd (data : List Byte) (i : Nat) : Run Byte :=
  if i < data.length then .ok (data.getD i 0) else .panic

/-- `u16::from_be_bytes` on two bytes. -/
def be16 (b0 b1 : Byte) : Nat := b0.val * 256 + b1.val

/-- `u32::from_be_bytes` on four bytes. -/
def be32 (b0 b1 b2 b3 : Byte) : Nat :=
  b0.val * 2 ^ 24 + b1.val * 2 ^ 16 + b2.val * 256 + b3.val

/-- `u64::from_be_bytes` on eight bytes. -/
def be64 (b0 b1 b2 b3 b4 b5 b6 b7 : Byte) : Nat :=
  b0.val * 2 ^ 56 + b1.val * 2 ^ 48 + b2.val * 2 ^ 40 + b3.val * 2 ^ 32 +
  b4.val * 2 ^ 24 + b5.val * 2 ^ 16 + b6.val * 256 + b7.val

/-- `u16::from_le_bytes` on two bytes. -/
def le16 (b0 b1 : Byte) : Nat := b1.val * 256 + b0.val

/-- `u32::from_le_bytes` on four bytes. -/
def le32 (b0 b1 b2 b3 : Byte) : Nat :=
  b3.val * 2 ^ 24 + b2.val * 2 ^ 16 + b1.val * 256 + b0.val

/-- `probe_png` (`probe.rs`): needs 33 bytes and the tag `IHDR` at
offset 12; dimensions are big-endian `u32` at offsets 16 and 20, bit
depth the byte at 24, alpha iff the colour type at 25 is 4 or 6. -/
def probe_png (data : List Byte) : Run ProbeResult :=
  let r : ProbeResult :=
    { format := .Png, width := none, height := none, has_alpha := none,
      has_animation := none, frame_count := none, bit_depth := none,
      bytes_examined := min data.length 33 }
  if data.length < 33 then .ok r
  else
    Run.bind (rd data 12) fun t0 =>
    Run.bind (rd data 13) fun t1 =>
    Run.bind (rd data 14) fun t2 =>
    Run.bind (rd data 15) fun t3 =>
    if ¬ (t0 = 0x49 ∧ t1 = 0x48 ∧ t2 = 0x44 ∧ t3 = 0x52) then .ok r
    else
      Run.bind (rd data 16) fun w0 =>
      Run.bind (rd data 17) fun w1 =>
      Run.bind (rd data 18) fun w2 =>
      Run.bind (rd data 19) fun w3 =>
      Run.bind (rd data 20) fun h0 =>
      Run.bind (rd data 21) fun h1 =>
      Run.bind (rd data 22) fun h2 =>
      Run.bind (rd data 23) fun h3 =>
      Run.bind (rd data 24) fun bd =>
      Run.bind (rd data 25) fun ct =>
      .ok { r with
        width := some (be32 w0 w1 w2 w3),
        height := some (be32 h0 h1 h2 h3),
        bit_depth := some bd.val,
        has_alpha := some (decide (ct.val = 4 ∨ ct.val = 6)),
        has_animation := none }

/-- `probe_gif` (`probe.rs`): needs 13 bytes; dimensions are
little-endian `u16` at offsets 6 and 8; alpha always `true`, bit
depth always 8.  No signature check is performed. -/
def probe_gif (data : List Byte) : Run ProbeResult :=
  let r : ProbeResult :=
    { format := .Gif, width := none, height := none, has_alpha := none,
      has_animation := none, frame_count := none, bit_depth := none,
      bytes_examined := min data.length 13 }
  if data.length < 13 then .ok r
  else
    Run.bind (rd data 6) fun w0 =>
    Run.bind (rd data 7) fun w1 =>
    Run.bind (rd data 8) fun h0 =>
    Run.bind (rd data 9) fun h1 =>
    .ok { r with
      width := some (le16 w0 w1),
      height := some (le16 h0 h1),
      has_alpha := some true,
      bit_depth := some 8,
      has_animation := none }

/-- `probe_webp` (`probe.rs`): branches on the sub-chunk tag at
offset 12 (`VP8X` / `VP8 ` / `VP8L`), mirroring the source's length
guards and field offsets. -/
def probe_webp (data : List Byte) : Run ProbeResult :=
  let r : ProbeResult :=
    { format := .WebP, width := none, height := none, has_alpha := none,
      has_animation := none, frame_count := none, bit_depth := none,
      bytes_examined := min data.length 30 }
  if data.length < 16 then .ok r
  else
    Run.bind (rd data 12) fun c0 =>
    Run.bind (rd data 13) fun c1 =>
    Run.bind (rd data 14) fun c2 =>
    Run.bind (rd data 15) fun c3 =>
    if c0 = 0x56 ∧ c1 = 0x50 ∧ c2 = 0x38 ∧ c3 = 0x58 then
      -- VP8X extended format
      if data.length < 30 then .ok r
      else
        Run.bind (rd data 20) fun flags =>
        Run.bind (rd data 24) fun w0 =>
        Run.bind (rd data 25) fun w1 =>
        Run.bind (rd data 26) fun w2 =>
        Run.bind (rd data 27) fun h0 =>
        Run.bind (rd data 28) fun h1 =>
        Run.bind (rd data 29) fun h2 =>
        let canvas_w := w0.val ||| (w1.val <<< 8) ||| (w2.val <<< 16)
        let canvas_h := h0.val ||| (h1.val <<< 8) ||| (h2.val <<< 16)
        .ok { r with
          width := some (canvas_w + 1),
          height := some (canvas_h + 1),
          has_alpha := some (decide (flags.val &&& 0x10 ≠ 0)),
          has_animation := some (decide (flags.val &&& 0x02 ≠ 0)),
          bit_depth := some 8 }
    else if c0 = 0x56 ∧ c1 = 0x50 ∧ c2 = 0x38 ∧ c3 = 0x20 then
      -- VP8 lossy keyframe
      if data.length < 30 then .ok r
      else
        if 30 ≤ data.length then
          Run.bind (rd data 23) fun k0 =>
          Run.bind (rd data 24) fun k1 =>
          Run.bind (rd data 25) fun k2 =>
          if k0 = 0x9D ∧ k1 = 0x01 ∧ k2 = 0x2A then
            Run.bind (rd data 26) fun w0 =>
            Run.bind (rd data 27) fun w1 =>
            Run.bind (rd data 28) fun h0 =>
            Run.bind (rd data 29) fun h1 =>
            .ok { r with
              width := some (le16 w0 w1 &&& 0x3FFF),
              height := some (le16 h0 h1 &&& 0x3FFF),
              has_alpha := some false,
              has_animation := some false,
              bit_depth := some 8 }
          else .ok r
        else .ok r
    else if c0 = 0x56 ∧ c1 = 0x50 ∧ c2 = 0x38 ∧ c3 = 0x4C then
      -- VP8L lossless
      if data.length < 25 then .ok r
      else
        Run.bind (rd data 20) fun sig =>
        if sig = 0x2F then
          Run.bind (rd data 21) fun b0 =>
          Run.bind (rd data 22) fun b1 =>
          Run.bind (rd data 23) fun b2 =>
          Run.bind (rd data 24) fun b3 =>
          let bits := le32 b0 b1 b2 b3
          .ok { r with
            width := some ((bits &&& 0x3FFF) + 1),
            height := some (((bits >>> 14) &&& 0x3FFF) + 1),
            has_alpha := some true,
            has_animation := some false,
            bit_depth := some 8 }
        else .ok r
    else .ok r

/-- The thirteen start-of-frame markers recognised by `probe_jpeg`
(`probe.rs`, the `is_sof` match). -/
def is_sof (m : Nat) : Bool :=
  m == 0xC0 || m == 0xC1 || m == 0xC2 || m == 0xC3 || m == 0xC5 ||
  m == 0xC6 || m == 0xC7 || m == 0xC9 || m == 0xCA || m == 0xCB ||
  m == 0xCD || m == 0xCE || m == 0xCF

/-- The epilogue of `probe_jpeg`'s scan loop:
`result.bytes_examined = pos.min(data.len())`. -/
def jpegFinish (data : List Byte) (r : ProbeResult) (pos : Nat) : ProbeResult :=
  { r with bytes_examined := min pos data.length }

/-- The inner padding-skip loop of `probe_jpeg`:
`while pos + 1 < data.len() && data[pos + 1] == 0xFF { pos += 1 }`.
Fuel is consumed only when the loop iterates. -/
def skipPad (data : List Byte) : Nat → Nat → Run Nat
  | 0, pos =>
    if pos + 1 < data.length then
      Run.bind (rd data (pos + 1)) fun b =>
        if b = 0xFF then .fuelOut else .ok pos
    else .ok pos
  | fuel + 1, pos =>
    if pos + 1 < data.length then
      Run.bind (rd data (pos + 1)) fun b =>
        if b = 0xFF then skipPad data fuel (pos + 1) else .ok pos
    else .ok pos

/-- The marker-scan loop of `probe_jpeg` (`probe.rs`), started at
`pos = 2` just past the SOI marker.  Each arm mirrors the source:
lost sync breaks, padding `0xFF` bytes are skipped, standalone
markers continue, SOS/EOI break, an SOF marker with enough bytes
returns precision/height/width, any other length-carrying marker
skips its declared length. -/
def jpegLoop (data : List Byte) (r : ProbeResult) : Nat → Nat → Run ProbeResult
  | 0, pos =>
    if pos + 1 < data.length then .fuelOut
    else .ok (jpegFinish data r pos)
  | fuel + 1, pos =>
    if pos + 1 < data.length then
      Run.bind (rd data pos) fun b0 =>
      if ¬ b0 = 0xFF then .ok (jpegFinish data r pos)
      else
        Run.bind (skipPad data data.length pos) fun p =>
        if data.length ≤ p + 1 then .ok (jpegFinish data r p)
        else
          Run.bind (rd data (p + 1)) fun mk =>
          let marker := mk.val
          let q := p + 2
          if marker = 0x00 ∨ marker = 0x01 ∨ (0xD0 ≤ marker ∧ marker ≤ 0xD7) then
            jpegLoop data r fuel q
          else if marker = 0xDA then .ok (jpegFinish data r q)
          else if marker = 0xD9 then .ok (jpegFinish data r q)
          else if data.length < q + 2 then .ok (jpegFinish data r q)
          else
            Run.bind (rd data q) fun l0 =>
            Run.bind (rd data (q + 1)) fun l1 =>
            let seg_len := be16 l0 l1
            if is_sof marker then
              if q + 7 < data.length then
                Run.bind (rd data (q + 2)) fun precision =>
                Run.bind (rd data (q + 3)) fun h0 =>
                Run.bind (rd data (q + 4)) fun h1 =>
                Run.bind (rd data (q + 5)) fun w0 =>
                Run.bind (rd data (q + 6)) fun w1 =>
                .ok { r with
                  width := some (be16 w0 w1),
                  height := some (be16 h0 h1),
                  bit_depth := some precision.val,
                  bytes_examined := q + 8 }
              else .ok (jpegFinish data r q)
            else if seg_len < 2 then .ok (jpegFinish data r q)
            else jpegLoop data r fuel (q + seg_len)
    else .ok (jpegFinish data r pos)

/-- `probe_jpeg` (`probe.rs`): initial record (alpha false, animation
false, frame count 1), then the marker scan from position 2. -/
def probe_jpeg (fuel : Nat) (data : List Byte) : Run ProbeResult :=
  let r : ProbeResult :=
    { format := .Jpeg, width := none, height := none,
      has_alpha := some false, has_animation := some false,
      frame_count := some 1, bit_depth := none, bytes_examined := 0 }
  if data.length < 4 then .ok { r with bytes_examined := data.length }
  else jpegLoop data r fuel 2

/-- A 4-byte ISOBMFF box tag. -/
abbrev BoxTag := Byte × Byte × Byte × Byte

/-- The `meta` box tag. -/
def metaTag : BoxTag := (0x6D, 0x65, 0x74, 0x61)

/-- The `iprp` box tag. -/
def iprpTag : BoxTag := (0x69, 0x70, 0x72, 0x70)

/-- The `ipco` box tag. -/
def ipcoTag : BoxTag := (0x69, 0x70, 0x63, 0x6F)

/-- The `ispe` box tag. -/
def ispeTag : BoxTag := (0x69, 0x73, 0x70, 0x65)

/-- `2^64`: the modulus of `usize` arithmetic on the 64-bit target. -/
def USIZE : Nat := 2 ^ 64

/-- The box walk of `find_box` (`probe.rs`).  At each position: read
a 32-bit size and 4-byte type; size 1 selects a 64-bit extended size
(`ext_size as usize` is the identity on the 64-bit target, and the
walk returns absent when the extended size is truncated), size 0
extends the box to the end of the data; a box smaller than its own
header is invalid; a matching tag returns the content slice (clamped
to the data) and the box's declared end offset; a box whose end does
not advance past its start stops the walk; otherwise the walk moves
to the box end.  `Run.ok none` is `find_box`'s `None`.  Fuel is
consumed only when the loop iterates.

The `usize` additions that can overflow — the loop condition
`pos + 8`, the extended-size guard `pos + 16`, `content_start` and
`box_end` — are taken modulo `2^64`, the release-profile wrapping
semantics (a debug build would panic on the same overflow).  The
byte reads `data[pos + k]` (`k ≤ 15`) are modelled without a
modulus: they are reached only after `data[pos]` succeeded, so
`pos + k < data.length + 16` cannot wrap for any input that fits in
an address space.  In particular a box declaring a huge extended
size moves `pos` to a wrapped position that can lie far beyond the
input, and the next iteration then panics indexing `data[pos]` —
faithful to the source, where the `box_end <= pos` guard does not
cover this path. -/
def findBoxLoop (data : List Byte) (t : BoxTag) :
    Nat → Nat → Run (Option (List Byte × Nat))
  | 0, pos =>
    if (pos + 8) % USIZE ≤ data.length then .fuelOut
    else .ok none
  | fuel + 1, pos =>
    if (pos + 8) % USIZE ≤ data.length then
      Run.bind (rd data pos) fun s0 =>
      Run.bind (rd data (pos + 1)) fun s1 =>
      Run.bind (rd data (pos + 2)) fun s2 =>
      Run.bind (rd data (pos + 3)) fun s3 =>
      Run.bind (rd data (pos + 4)) fun b4 =>
      Run.bind (rd data (pos + 5)) fun b5 =>
      Run.bind (rd data (pos + 6)) fun b6 =>
      Run.bind (rd data (pos + 7)) fun b7 =>
      let size := be32 s0 s1 s2 s3
      Run.bind
        (if size = 1 then
          if data.length < (pos + 16) % USIZE then .ok none
          else
            Run.bind (rd data (pos + 8)) fun e0 =>
            Run.bind (rd data (pos + 9)) fun e1 =>
            Run.bind (rd data (pos + 10)) fun e2 =>
            Run.bind (rd data (pos + 11)) fun e3 =>
            Run.bind (rd data (pos + 12)) fun e4 =>
            Run.bind (rd data (pos + 13)) fun e5 =>
            Run.bind (rd data (pos + 14)) fun e6 =>
            Run.bind (rd data (pos + 15)) fun e7 =>
            .ok (some (16, be64 e0 e1 e2 e3 e4 e5 e6 e7))
        else if size = 0 then .ok (some (8, data.length - pos))
        else .ok (some (8, size))) fun sizes =>
      match sizes with
      | none => .ok none
      | some (header_size, box_size) =>
        if box_size < header_size then .ok none
        else
          let content_start := (pos + header_size) % USIZE
          let box_end := (pos + box_size) % USIZE
          if (b4, b5, b6, b7) = t then
            let content_end := min box_end data.length
            if content_start ≤ content_end then
              .ok (some ((data.drop content_start).take (content_end - content_start), box_end))
            else .ok none
          else if box_end ≤ pos then .ok none
          else findBoxLoop data t fuel box_end
    else .ok none

/-- `probe_avif` (`probe.rs`): locate `meta`, skip its 4 version/flags
bytes, then `iprp` → `ipco` → `ispe`; `ispe` content is 4 bytes of
version/flags followed by big-endian 32-bit width and height.
`bytes_examined` is the `meta` box's declared end offset when `meta`
was found, else the input length. -/
def probe_avif (fuel : Nat) (data : List Byte) : Run ProbeResult :=
  let r : ProbeResult :=
    { format := .Avif, width := none, height := none, has_alpha := none,
      has_animation := none, frame_count := none, bit_depth := none,
      bytes_examined := 0 }
  Run.bind (findBoxLoop data metaTag fuel 0) fun mfound =>
  match mfound with
  | none => .ok { r with bytes_examined := data.length }
  | some (meta_data, meta_end) =>
    if 4 ≤ meta_data.length then
      Run.bind (findBoxLoop (meta_data.drop 4) iprpTag fuel 0) fun f1 =>
      match f1 with
      | none => .ok { r with bytes_examined := meta_end }
      | some (iprp_data, _) =>
        Run.bind (findBoxLoop iprp_data ipcoTag fuel 0) fun f2 =>
        match f2 with
        | none => .ok { r with bytes_examined := meta_end }
        | some (ipco_data, _) =>
          Run.bind (findBoxLoop ipco_data ispeTag fuel 0) fun f3 =>
          match f3 with
          | none => .ok { r with bytes_examined := meta_end }
          | some (ispe_data, _) =>
            if 12 ≤ ispe_data.length then
              Run.bind (rd ispe_data 4) fun w0 =>
              Run.bind (rd ispe_data 5) fun w1 =>
              Run.bind (rd ispe_data 6) fun w2 =>
              Run.bind (rd ispe_data 7) fun w3 =>
              Run.bind (rd ispe_data 8) fun h0 =>
              Run.bind (rd ispe_data 9) fun h1 =>
              Run.bind (rd ispe_data 10) fun h2 =>
              Run.bind (rd ispe_data 11) fun h3 =>
              .ok { r with
                width := some (be32 w0 w1 w2 w3),
                height := some (be32 h0 h1 h2 h3),
                bytes_examined := meta_end }
            else .ok { r with bytes_examined := meta_end }
    else .ok { r with bytes_examined := meta_end }

/-- `probe_jxl` (`probe.rs`), in the build without the `jxl-decode`
feature: format-only.  (The feature-gated path delegates to the
external `zenjxl` crate, which is not part of this repository.) -/
def probe_jxl (data : List Byte) : Run ProbeResult :=
  .ok { format := .Jxl, width := none, height := none, has_alpha := none,
        has_animation := none, frame_count := none, bit_depth := none,
        bytes_examined := min data.length 12 }

/-- `ProbeResult::for_format` (`probe.rs`): dispatch to the
format-specific parser.  `fuel` bounds the two embedded loops. -/
def forFormatRun (fuel : Nat) (data : List Byte) (format : ImageFormat) :
    Run ProbeResult :=
  match format with
  | .Png => probe_png data
  | .Gif => probe_gif data
  | .WebP => probe_webp data
  | .Jpeg => probe_jpeg fuel data
  | .Avif => probe_avif fuel data
  | .Jxl => probe_jxl data

/-- `ProbeResult::for_format` as a total function, run with fuel
`data.length + 1` (shown sufficient below: the fuel is never
exhausted at this budget).  The fallback record stands in where the
source panics — reachable only in `probe_avif` via wrapped `usize`
arithmetic, exhibited on the run level below; for the other formats
probing always returns `Run.ok`. -/
def ProbeResult.for_format (data : List Byte) (format : ImageFormat) :
    ProbeResult :=
  match forFormatRun (data.length + 1) data format with
  | .ok r => r
  | _ =>
    { format := format, width := none, height := none, has_alpha := none,
      has_animation := none, frame_count := none, bit_depth := none,
      bytes_examined := 0 }

/-- `ImageFormat::detect` (`format.rs`): fixed-offset magic-byte
checks in source order; every index is guarded by a length check, so
total access via `getD` is faithful. -/
def ImageFormat.detect (data : List Byte) : Option ImageFormat :=
  -- JPEG: FF D8 FF
  if 3 ≤ data.length ∧ data.getD 0 0 = 0xFF ∧ data.getD 1 0 = 0xD8 ∧
      data.getD 2 0 = 0xFF then
    some .Jpeg
  -- PNG: 89 50 4E 47 0D 0A 1A 0A
  else if 8 ≤ data.length ∧ data.getD 0 0 = 0x89 ∧ data.getD 1 0 = 0x50 ∧
      data.getD 2 0 = 0x4E ∧ data.getD 3 0 = 0x47 ∧ data.getD 4 0 = 0x0D ∧
      data.getD 5 0 = 0x0A ∧ data.getD 6 0 = 0x1A ∧ data.getD 7 0 = 0x0A then
    some .Png
  -- GIF: "GIF87a" or "GIF89a"
  else if 6 ≤ data.length ∧ data.getD 0 0 = 0x47 ∧ data.getD 1 0 = 0x49 ∧
      data.getD 2 0 = 0x46 ∧ data.getD 3 0 = 0x38 ∧
      (data.getD 4 0 = 0x37 ∨ data.getD 4 0 = 0x39) ∧ data.getD 5 0 = 0x61 then
    some .Gif
  -- WebP: "RIFF....WEBP"
  else if 12 ≤ data.length ∧ data.getD 0 0 = 0x52 ∧ data.getD 1 0 = 0x49 ∧
      data.getD 2 0 = 0x46 ∧ data.getD 3 0 = 0x46 ∧ data.getD 8 0 = 0x57 ∧
      data.getD 9 0 = 0x45 ∧ data.getD 10 0 = 0x42 ∧ data.getD 11 0 = 0x50 then
    some .WebP
  -- AVIF: "ftyp" at offset 4, major brand "avif" or "avis"
  else if 12 ≤ data.length ∧ data.getD 4 0 = 0x66 ∧ data.getD 5 0 = 0x74 ∧
      data.getD 6 0 = 0x79 ∧ data.getD 7 0 = 0x70 ∧
      data.getD 8 0 = 0x61 ∧ data.getD 9 0 = 0x76 ∧ data.getD 10 0 = 0x69 ∧
      (data.getD 11 0 = 0x66 ∨ data.getD 11 0 = 0x73) then
    some .Avif
  -- JPEG XL codestream: FF 0A
  else if 2 ≤ data.length ∧ data.getD 0 0 = 0xFF ∧ data.getD 1 0 = 0x0A then
    some .Jxl
  -- JPEG XL container: 00 00 00 0C 4A 58 4C 20 0D 0A 87 0A
  else if 12 ≤ data.length ∧ data.getD 0 0 = 0x00 ∧ data.getD 1 0 = 0x00 ∧
      data.getD 2 0 = 0x00 ∧ data.getD 3 0 = 0x0C ∧ data.getD 4 0 = 0x4A ∧
      data.getD 5 0 = 0x58 ∧ data.getD 6 0 = 0x4C ∧ data.getD 7 0 = 0x20 ∧
      data.getD 8 0 = 0x0D ∧ data.getD 9 0 = 0x0A ∧ data.getD 10 0 = 0x87 ∧
      data.getD 11 0 = 0x0A then
    some .Jxl
  else none

/-- `FormatSet` (`registry.rs`): formats as bitflags in a `u8`. -/
structure FormatSet where
  bits : Nat
deriving DecidableEq

/-- The bit assigned to each format (`registry.rs`). -/
def formatBit : ImageFormat → Nat
  | .Jpeg => 1
  | .WebP => 2
  | .Gif => 4
  | .Png => 8
  | .Avif => 16
  | .Jxl => 32

/-- `FormatSet::contains`. -/
def FormatSet.contains (s : FormatSet) (format : ImageFormat) : Bool :=
  decide (s.bits &&& formatBit format ≠ 0)

/-- `CodecRegistry` (`registry.rs`). -/
structure CodecRegistry where
  decode_enabled : FormatSet
  encode_enabled : FormatSet
deriving DecidableEq

/-- `CodecRegistry::can_decode`, modelling the full build in which
every codec feature is compiled in, so the compile-time half of the
check is `true` for every format. -/
def CodecRegistry.can_decode (registry : CodecRegistry) (format : ImageFormat) :
    Bool :=
  if ¬ registry.decode_enabled.contains format then false
  else
    match format with
    | .Jpeg => true
    | .WebP => true
    | .Gif => true
    | .Png => true
    | .Avif => true
    | .Jxl => true

/-- `CodecRegistry::all` in the full build: every format enabled. -/
def CodecRegistry.all : CodecRegistry :=
  { decode_enabled := ⟨63⟩, encode_enabled := ⟨63⟩ }

/-- `CodecRegistry::none`: nothing enabled. -/
def CodecRegistry.none : CodecRegistry :=
  { decode_enabled := ⟨0⟩, encode_enabled := ⟨0⟩ }

/-- The constructors of `CodecError` (`error.rs`) reachable from the
probing entry points.  (The remaining variants carry codec-internal
payloads and are produced only by the decode/encode paths.) -/
inductive CodecError where
  | UnrecognizedFormat
  | UnsupportedFormat (format : ImageFormat)
  | DisabledFormat (format : ImageFormat)
deriving DecidableEq

/-- `probe_with_registry` (`info.rs`): detect the format, fail with
`UnrecognizedFormat` when no signature matches, with `DisabledFormat`
when the registry cannot decode it, else run the format's parser.
The dispatch runs in the panic-tracking monad, so a panic inside a
parser (reachable in `probe_avif`) propagates instead of being
absorbed. -/
def probe_with_registry (fuel : Nat) (data : List Byte)
    (registry : CodecRegistry) : Run (Except CodecError ProbeResult) :=
  match ImageFormat.detect data with
  | Option.none => .ok (.error .UnrecognizedFormat)
  | some format =>
    if ¬ registry.can_decode format then .ok (.error (.DisabledFormat format))
    else Run.bind (forFormatRun fuel data format) fun out => .ok (.ok out)

/-- `probe_format` (`info.rs`): probe with an asserted format,
skipping auto-detection.  (Documented in the source as never
failing; via `ProbeResult.for_format` this model totalises the one
reachable panic, which is exhibited separately on the run level.) -/
def probe_format (data : List Byte) (format : ImageFormat) : ProbeResult :=
  ProbeResult.for_format data format

/-- A 16-byte input whose single box (`ftyp`) declares the 64-bit
extended size `2^64 - 1`: the walk moves to position `2^64 - 1`, the
wrapped loop condition `(2^64 - 1) + 8 ≡ 7 ≤ 16` re-enters, and
`data[2^64 - 1]` is out of bounds. -/
def overflowSample : List Byte :=
  [0, 0, 0, 1, 0x66, 0x74, 0x79, 0x70,
   255, 255, 255, 255, 255, 255, 255, 255]

/-- Like `overflowSample` but with a box tag (`abcd`) that matches no
query, exercising `find_box` directly. -/
def overflowWalkSample : List Byte :=
  [0, 0, 0, 1, 0x61, 0x62, 0x63, 0x64,
   255, 255, 255, 255, 255, 255, 255, 255]

/-- A 32-byte input with genuine `ftypavif` magic followed by an
`mdat` box declaring the extended size `2^64 - 17`: detected as
AVIF, then the box walk jumps from position 16 to `2^64 - 1` and the
next iteration indexes out of bounds. -/
def avifPanicSample : List Byte :=
  [0, 0, 0, 16, 0x66, 0x74, 0x79, 0x70, 0x61, 0x76, 0x69, 0x66, 0, 0, 0, 0,
   0, 0, 0, 1, 0x6D, 0x64, 0x61, 0x74,
   255, 255, 255, 255, 255, 255, 255, 0xEF]

/-- Like `avifPanicSample` with a `moov` box: detected as AVIF,
accepted by the registry, then the probe panics. -/
def registryPanicSample : List Byte :=
  [0, 0, 0, 16, 0x66, 0x74, 0x79, 0x70, 0x61, 0x76, 0x69, 0x66, 0, 0, 0, 0,
   0, 0, 0, 1, 0x6D, 0x6F, 0x6F, 0x76,
   255, 255, 255, 255, 255, 255, 255, 0xEF]

/-! ### Basic lemmas about `Run` and `rd` -/

theorem Run.bind_ok (a : α) (f : α → Run β) : Run.bind (.ok a) f = f a := rfl

theorem Run.bind_eq_ok {x : Run α} {f : α → Run β} {b : β} :
    Run.bind x f = .ok b ↔ ∃ a, x = .ok a ∧ f a = .ok b := by
  cases x <;> simp [Run.bind]

theorem Run.isPanic_bind {x : Run α} {f : α → Run β}
    (hx : x.isPanic = false) (hf : ∀ a, (f a).isPanic = false) :
    (Run.bind x f).isPanic = false := by
  cases x <;> simp_all [Run.bind, Run.isPanic]

theorem Run.isFuelOut_bind {x : Run α} {f : α → Run β}
    (hx : x.isFuelOut = false) (hf : ∀ a, (f a).isFuelOut = false) :
    (Run.bind x f).isFuelOut = false := by
  cases x <;> simp_all [Run.bind, Run.isFuelOut]

theorem Run.isOk_of {x : Run α} (hp : x.isPanic = false)
    (hf : x.isFuelOut = false) : x.isOk = true := by
  cases x <;> simp_all [Run.isPanic, Run.isFuelOut, Run.isOk]

theorem rd_eq_ok {data : List Byte} {i : Nat} (h : i < data.length) :
    rd data i = .ok (data.getD i 0) := by
  simp [rd, h]

theorem rd_isPanic {data : List Byte} {i : Nat} (h : i < data.length) :
    (rd data i).isPanic = false := by
  simp [rd, h, Run.isPanic]

theorem rd_isFuelOut (data : List Byte) (i : Nat) :
    (rd data i).isFuelOut = false := by
  unfold rd
  split <;> rfl

theorem rd_ok_lt {data : List Byte} {i : Nat} {b : Byte}
    (h : rd data i = .ok b) : i < data.length := by
  unfold rd at h
  revert h
  split
  · intro _
    assumption
  · intro h
    exact absurd h (by simp)

/-! ### Out-of-bounds accesses: the straight-line parsers and the
JPEG scan are panic-free; the box walk is not (shown further below) -/

theorem probe_png_no_panic (data : List Byte) :
    (probe_png data).isPanic = false := by
  unfold probe_png
  split
  · rfl
  · rename_i h
    rw [rd_eq_ok (by omega), rd_eq_ok (by omega), rd_eq_ok (by omega),
      rd_eq_ok (by omega)]
    simp only [Run.bind_ok]
    split
    · rfl
    · rw [rd_eq_ok (by omega), rd_eq_ok (by omega), rd_eq_ok (by omega),
        rd_eq_ok (by omega), rd_eq_ok (by omega), rd_eq_ok (by omega),
        rd_eq_ok (by omega), rd_eq_ok (by omega), rd_eq_ok (by omega),
        rd_eq_ok (by omega)]
      rfl

theorem probe_gif_no_panic (data : List Byte) :
    (probe_gif data).isPanic = false := by
  unfold probe_gif
  split
  · rfl
  · rename_i h
    rw [rd_eq_ok (by omega), rd_eq_ok (by omega), rd_eq_ok (by omega),
      rd_eq_ok (by omega)]
    rfl

theorem probe_webp_no_panic (data : List Byte) :
    (probe_webp data).isPanic = false := by
  unfold probe_webp
  split
  · rfl
  · rename_i h
    rw [rd_eq_ok (by omega), rd_eq_ok (by omega), rd_eq_ok (by omega),
      rd_eq_ok (by omega)]
    simp only [Run.bind_ok]
    split
    · -- VP8X
      split
      · rfl
      · rw [rd_eq_ok (by omega), rd_eq_ok (by omega), rd_eq_ok (by omega),
          rd_eq_ok (by omega), rd_eq_ok (by omega), rd_eq_ok (by omega),
          rd_eq_ok (by omega)]
        rfl
    · split
      · -- VP8
        split
        · rfl
        · split
          · rw [rd_eq_ok (by omega), rd_eq_ok (by omega), rd_eq_ok (by omega)]
            simp only [Run.bind_ok]
            split
            · rw [rd_eq_ok (by omega), rd_eq_ok (by omega), rd_eq_ok (by omega),
                rd_eq_ok (by omega)]
              rfl
            · rfl
          · rfl
      · split
        · -- VP8L
          split
          · rfl
          · rw [rd_eq_ok (by omega)]
            simp only [Run.bind_ok]
            split
            · rw [rd_eq_ok (by omega), rd_eq_ok (by omega), rd_eq_ok (by omega),
                rd_eq_ok (by omega)]
              rfl
            · rfl
        · rfl

theorem skipPad_no_panic (data : List Byte) :
    ∀ fuel pos, (skipPad data fuel pos).isPanic = false := by
  intro fuel
  induction fuel with
  | zero =>
    intro pos
    unfold skipPad
    split
    · exact Run.isPanic_bind (rd_isPanic (by omega)) fun b => by
        split <;> rfl
    · rfl
  | succ fuel ih =>
    intro pos
    unfold skipPad
    split
    · refine Run.isPanic_bind (rd_isPanic (by omega)) fun b => ?_
      split
      · exact ih (pos + 1)
      · rfl
    · rfl

theorem jpegLoop_no_panic (data : List Byte) (r : ProbeResult) :
    ∀ fuel pos, (jpegLoop data r fuel pos).isPanic = false := by
  intro fuel
  induction fuel with
  | zero =>
    intro pos
    unfold jpegLoop
    split <;> rfl
  | succ fuel ih =>
    intro pos
    unfold jpegLoop
    split
    · refine Run.isPanic_bind (rd_isPanic (by omega)) fun b0 => ?_
      split
      · rfl
      · refine Run.isPanic_bind (skipPad_no_panic data data.length pos) fun p => ?_
        split
        · rfl
        · refine Run.isPanic_bind (rd_isPanic (by omega)) fun mk => ?_
          dsimp only
          split
          · exact ih _
          · split
            · rfl
            · split
              · rfl
              · split
                · rfl
                · refine Run.isPanic_bind (rd_isPanic (by omega)) fun l0 => ?_
                  refine Run.isPanic_bind (rd_isPanic (by omega)) fun l1 => ?_
                  dsimp only
                  split
                  · split
                    · refine Run.isPanic_bind (rd_isPanic (by omega)) fun a0 => ?_
                      refine Run.isPanic_bind (rd_isPanic (by omega)) fun a1 => ?_
                      refine Run.isPanic_bind (rd_isPanic (by omega)) fun a2 => ?_
                      refine Run.isPanic_bind (rd_isPanic (by omega)) fun a3 => ?_
                      refine Run.isPanic_bind (rd_isPanic (by omega)) fun a4 => ?_
                      rfl
                    · rfl
                  · split
                    · rfl
                    · exact ih _
    · rfl

theorem probe_jpeg_no_panic (fuel : Nat) (data : List Byte) :
    (probe_jpeg fuel data).isPanic = false := by
  unfold probe_jpeg
  split
  · rfl
  · exact jpegLoop_no_panic data _ fuel 2

/-- C1 (code_bug): probing is NOT total.  The claim that the probe
functions never panic is refuted at `overflowSample`: its single box
declares the 64-bit extended size `2^64 - 1`, the walk moves to the
wrapped position `2^64 - 1`, the loop condition wraps to `7 ≤ 16`
and re-enters, and the next byte read indexes out of bounds, so
`probe_avif` panics in a release build (a debug build panics one
step earlier, on the overflowing `pos + 8`).  The non-advancement
guard does not cover this path. -/
theorem probe_avif_overflow_panic :
    (forFormatRun (overflowSample.length + 1) overflowSample
      ImageFormat.Avif).isPanic = true := by
  decide

/-- C4 counterexample: the box walk does not always advance strictly
or return absent — on `overflowWalkSample` it moves to position
`2^64 - 1`, far past the input length, and the next iteration panics
instead of returning absent. -/
theorem find_box_walk_panics :
    (findBoxLoop overflowWalkSample metaTag
      (overflowWalkSample.length + 1) 0).isPanic = true := by
  decide

/-- C6 counterexample: `probe_avif` does not always return a value —
on `avifPanicSample` (valid `ftypavif` magic followed by an `mdat`
box with extended size `2^64 - 17`) it panics. -/
theorem probe_avif_not_total :
    (probe_avif (avifPanicSample.length + 1) avifPanicSample).isPanic = true := by
  decide


/-! ### Termination: the loop fuel never runs out once it exceeds the
input length -/

theorem Run.isFuelOut_bind_ok {x : Run α} {f : α → Run β}
    (hx : x.isFuelOut = false) (hf : ∀ a, x = .ok a → (f a).isFuelOut = false) :
    (Run.bind x f).isFuelOut = false := by
  cases x with
  | panic => rfl
  | fuelOut => exact absurd hx (by simp [Run.isFuelOut])
  | ok a => exact hf a rfl

theorem skipPad_ge (data : List Byte) :
    ∀ fuel pos p, skipPad data fuel pos = .ok p → pos ≤ p := by
  intro fuel
  induction fuel with
  | zero =>
    intro pos p h
    unfold skipPad at h
    revert h
    split
    · rw [rd_eq_ok (by omega), Run.bind_ok]
      split
      · intro h; exact absurd h (by simp)
      · intro h; injection h with h; omega
    · intro h; injection h with h; omega
  | succ fuel ih =>
    intro pos p h
    unfold skipPad at h
    revert h
    split
    · rw [rd_eq_ok (by omega), Run.bind_ok]
      split
      · intro h
        have := ih (pos + 1) p h
        omega
      · intro h; injection h with h; omega
    · intro h; injection h with h; omega

theorem skipPad_no_fuelOut (data : List Byte) :
    ∀ fuel pos, data.length ≤ fuel + pos + 1 →
      (skipPad data fuel pos).isFuelOut = false := by
  intro fuel
  induction fuel with
  | zero =>
    intro pos hlen
    unfold skipPad
    split
    · omega
    · rfl
  | succ fuel ih =>
    intro pos hlen
    unfold skipPad
    split
    · refine Run.isFuelOut_bind_ok (rd_isFuelOut data (pos + 1)) fun b _ => ?_
      split
      · exact ih (pos + 1) (by omega)
      · rfl
    · rfl

theorem jpegLoop_no_fuelOut (data : List Byte) (r : ProbeResult) :
    ∀ fuel pos, data.length ≤ fuel + pos + 1 →
      (jpegLoop data r fuel pos).isFuelOut = false := by
  intro fuel
  induction fuel with
  | zero =>
    intro pos hlen
    unfold jpegLoop
    split
    · omega
    · rfl
  | succ fuel ih =>
    intro pos hlen
    unfold jpegLoop
    split
    · refine Run.isFuelOut_bind_ok (rd_isFuelOut data pos) fun b0 _ => ?_
      split
      · rfl
      · refine Run.isFuelOut_bind_ok
          (skipPad_no_fuelOut data data.length pos (by omega)) fun p hp => ?_
        have hge : pos ≤ p := skipPad_ge data data.length pos p hp
        split
        · rfl
        · refine Run.isFuelOut_bind_ok (rd_isFuelOut data (p + 1)) fun mk _ => ?_
          dsimp only
          split
          · exact ih (p + 2) (by omega)
          · split
            · rfl
            · split
              · rfl
              · split
                · rfl
                · refine Run.isFuelOut_bind_ok (rd_isFuelOut data _) fun l0 _ => ?_
                  refine Run.isFuelOut_bind_ok (rd_isFuelOut data _) fun l1 _ => ?_
                  dsimp only
                  split
                  · split
                    · refine Run.isFuelOut_bind_ok (rd_isFuelOut data _) fun a0 _ => ?_
                      refine Run.isFuelOut_bind_ok (rd_isFuelOut data _) fun a1 _ => ?_
                      refine Run.isFuelOut_bind_ok (rd_isFuelOut data _) fun a2 _ => ?_
                      refine Run.isFuelOut_bind_ok (rd_isFuelOut data _) fun a3 _ => ?_
                      refine Run.isFuelOut_bind_ok (rd_isFuelOut data _) fun a4 _ => ?_
                      rfl
                    · rfl
                  · split
                    · rfl
                    · exact ih (p + 2 + be16 l0 l1) (by omega)
    · rfl

theorem findBoxLoop_no_fuelOut (data : List Byte) (t : BoxTag) :
    ∀ fuel pos, 1 ≤ fuel → data.length ≤ fuel + pos →
      (findBoxLoop data t fuel pos).isFuelOut = false := by
  intro fuel
  induction fuel with
  | zero =>
    intro pos hone _
    exact absurd hone (by omega)
  | succ fuel ih =>
    intro pos _ hlen
    unfold findBoxLoop
    split
    · refine Run.isFuelOut_bind_ok (rd_isFuelOut data _) fun s0 _ => ?_
      refine Run.isFuelOut_bind_ok (rd_isFuelOut data _) fun s1 _ => ?_
      refine Run.isFuelOut_bind_ok (rd_isFuelOut data _) fun s2 _ => ?_
      refine Run.isFuelOut_bind_ok (rd_isFuelOut data _) fun s3 _ => ?_
      refine Run.isFuelOut_bind_ok (rd_isFuelOut data _) fun b4 _ => ?_
      refine Run.isFuelOut_bind_ok (rd_isFuelOut data _) fun b5 _ => ?_
      refine Run.isFuelOut_bind_ok (rd_isFuelOut data _) fun b6 _ => ?_
      refine Run.isFuelOut_bind_ok (rd_isFuelOut data _) fun b7 hb7 => ?_
      have hlt : pos + 7 < data.length := rd_ok_lt hb7
      dsimp only
      refine Run.isFuelOut_bind_ok ?_ fun sizes _ => ?_
      · split
        · split
          · rfl
          · refine Run.isFuelOut_bind_ok (rd_isFuelOut data _) fun e0 _ => ?_
            refine Run.isFuelOut_bind_ok (rd_isFuelOut data _) fun e1 _ => ?_
            refine Run.isFuelOut_bind_ok (rd_isFuelOut data _) fun e2 _ => ?_
            refine Run.isFuelOut_bind_ok (rd_isFuelOut data _) fun e3 _ => ?_
            refine Run.isFuelOut_bind_ok (rd_isFuelOut data _) fun e4 _ => ?_
            refine Run.isFuelOut_bind_ok (rd_isFuelOut data _) fun e5 _ => ?_
            refine Run.isFuelOut_bind_ok (rd_isFuelOut data _) fun e6 _ => ?_
            refine Run.isFuelOut_bind_ok (rd_isFuelOut data _) fun e7 _ => ?_
            rfl
        · split <;> rfl
      · match sizes with
        | Option.none => rfl
        | some (header_size, box_size) =>
          dsimp only
          split
          · rfl
          · split
            · split <;> rfl
            · split
              · rfl
              · exact ih ((pos + box_size) % USIZE) (by omega) (by omega)
    · rfl

/-- Any box content returned by the box walk is a sub-slice of the
walked data, so its length is bounded by the data's length. -/
theorem findBoxLoop_content_le (data : List Byte) (t : BoxTag) :
    ∀ fuel pos c e, findBoxLoop data t fuel pos = .ok (some (c, e)) →
      c.length ≤ data.length := by
  intro fuel
  induction fuel with
  | zero =>
    intro pos c e h
    unfold findBoxLoop at h
    revert h
    split
    · intro h; exact absurd h (by simp)
    · intro h; exact absurd h (by simp)
  | succ fuel ih =>
    intro pos c e h
    unfold findBoxLoop at h
    revert h
    split
    · intro h
      rw [Run.bind_eq_ok] at h; obtain ⟨s0, -, h⟩ := h
      rw [Run.bind_eq_ok] at h; obtain ⟨s1, -, h⟩ := h
      rw [Run.bind_eq_ok] at h; obtain ⟨s2, -, h⟩ := h
      rw [Run.bind_eq_ok] at h; obtain ⟨s3, -, h⟩ := h
      rw [Run.bind_eq_ok] at h; obtain ⟨b4, -, h⟩ := h
      rw [Run.bind_eq_ok] at h; obtain ⟨b5, -, h⟩ := h
      rw [Run.bind_eq_ok] at h; obtain ⟨b6, -, h⟩ := h
      rw [Run.bind_eq_ok] at h; obtain ⟨b7, -, h⟩ := h
      dsimp only at h
      rw [Run.bind_eq_ok] at h
      obtain ⟨sizes, hsz, h⟩ := h
      match sizes with
      | Option.none => exact absurd h (by simp)
      | some (header_size, box_size) =>
        dsimp only at h
        revert h
        split
        · intro h; exact absurd h (by simp)
        · split
          · split
            · intro h
              simp only [Run.ok.injEq, Option.some.injEq, Prod.mk.injEq] at h
              obtain ⟨h1, h2⟩ := h
              subst h1
              simp only [List.length_take, List.length_drop]
              omega
            · intro h; exact absurd h (by simp)
          · split
            · intro h; exact absurd h (by simp)
            · intro h; exact ih _ _ _ h
    · intro h; exact absurd h (by simp)

theorem probe_png_no_fuelOut (data : List Byte) :
    (probe_png data).isFuelOut = false := by
  unfold probe_png
  split
  · rfl
  · refine Run.isFuelOut_bind (rd_isFuelOut data _) fun t0 => ?_
    refine Run.isFuelOut_bind (rd_isFuelOut data _) fun t1 => ?_
    refine Run.isFuelOut_bind (rd_isFuelOut data _) fun t2 => ?_
    refine Run.isFuelOut_bind (rd_isFuelOut data _) fun t3 => ?_
    split
    · rfl
    · refine Run.isFuelOut_bind (rd_isFuelOut data _) fun w0 => ?_
      refine Run.isFuelOut_bind (rd_isFuelOut data _) fun w1 => ?_
      refine Run.isFuelOut_bind (rd_isFuelOut data _) fun w2 => ?_
      refine Run.isFuelOut_bind (rd_isFuelOut data _) fun w3 => ?_
      refine Run.isFuelOut_bind (rd_isFuelOut data _) fun h0 => ?_
      refine Run.isFuelOut_bind (rd_isFuelOut data _) fun h1 => ?_
      refine Run.isFuelOut_bind (rd_isFuelOut data _) fun h2 => ?_
      refine Run.isFuelOut_bind (rd_isFuelOut data _) fun h3 => ?_
      refine Run.isFuelOut_bind (rd_isFuelOut data _) fun bd => ?_
      refine Run.isFuelOut_bind (rd_isFuelOut data _) fun ct => ?_
      rfl

theorem probe_gif_no_fuelOut (data : List Byte) :
    (probe_gif data).isFuelOut = false := by
  unfold probe_gif
  split
  · rfl
  · refine Run.isFuelOut_bind (rd_isFuelOut data _) fun w0 => ?_
    refine Run.isFuelOut_bind (rd_isFuelOut data _) fun w1 => ?_
    refine Run.isFuelOut_bind (rd_isFuelOut data _) fun h0 => ?_
    refine Run.isFuelOut_bind (rd_isFuelOut data _) fun h1 => ?_
    rfl

theorem probe_webp_no_fuelOut (data : List Byte) :
    (probe_webp data).isFuelOut = false := by
  unfold probe_webp
  split
  · rfl
  · refine Run.isFuelOut_bind (rd_isFuelOut data _) fun c0 => ?_
    refine Run.isFuelOut_bind (rd_isFuelOut data _) fun c1 => ?_
    refine Run.isFuelOut_bind (rd_isFuelOut data _) fun c2 => ?_
    refine Run.isFuelOut_bind (rd_isFuelOut data _) fun c3 => ?_
    split
    · split
      · rfl
      · refine Run.isFuelOut_bind (rd_isFuelOut data _) fun flags => ?_
        refine Run.isFuelOut_bind (rd_isFuelOut data _) fun w0 => ?_
        refine Run.isFuelOut_bind (rd_isFuelOut data _) fun w1 => ?_
        refine Run.isFuelOut_bind (rd_isFuelOut data _) fun w2 => ?_
        refine Run.isFuelOut_bind (rd_isFuelOut data _) fun h0 => ?_
        refine Run.isFuelOut_bind (rd_isFuelOut data _) fun h1 => ?_
        refine Run.isFuelOut_bind (rd_isFuelOut data _) fun h2 => ?_
        rfl
    · split
      · split
        · rfl
        · split
          · refine Run.isFuelOut_bind (rd_isFuelOut data _) fun k0 => ?_
            refine Run.isFuelOut_bind (rd_isFuelOut data _) fun k1 => ?_
            refine Run.isFuelOut_bind (rd_isFuelOut data _) fun k2 => ?_
            split
            · refine Run.isFuelOut_bind (rd_isFuelOut data _) fun w0 => ?_
              refine Run.isFuelOut_bind (rd_isFuelOut data _) fun w1 => ?_
              refine Run.isFuelOut_bind (rd_isFuelOut data _) fun h0 => ?_
              refine Run.isFuelOut_bind (rd_isFuelOut data _) fun h1 => ?_
              rfl
            · rfl
          · rfl
      · split
        · split
          · rfl
          · refine Run.isFuelOut_bind (rd_isFuelOut data _) fun sig => ?_
            split
            · refine Run.isFuelOut_bind (rd_isFuelOut data _) fun b0 => ?_
              refine Run.isFuelOut_bind (rd_isFuelOut data _) fun b1 => ?_
              refine Run.isFuelOut_bind (rd_isFuelOut data _) fun b2 => ?_
              refine Run.isFuelOut_bind (rd_isFuelOut data _) fun b3 => ?_
              rfl
            · rfl
        · rfl

theorem probe_jpeg_no_fuelOut (data : List Byte) :
    (probe_jpeg (data.length + 1) data).isFuelOut = false := by
  unfold probe_jpeg
  split
  · rfl
  · exact jpegLoop_no_fuelOut data _ (data.length + 1) 2 (by omega)

theorem probe_avif_no_fuelOut (data : List Byte) :
    (probe_avif (data.length + 1) data).isFuelOut = false := by
  unfold probe_avif
  refine Run.isFuelOut_bind_ok
    (findBoxLoop_no_fuelOut data metaTag _ 0 (by omega) (by omega))
    fun mfound hm => ?_
  match mfound with
  | Option.none => rfl
  | some (meta_data, meta_end) =>
    dsimp only
    have hm1 := findBoxLoop_content_le data metaTag _ 0 meta_data meta_end hm
    split
    · refine Run.isFuelOut_bind_ok
        (findBoxLoop_no_fuelOut (meta_data.drop 4) iprpTag _ 0 (by omega)
          (by simp only [List.length_drop]; omega)) fun f1 h1 => ?_
      match f1 with
      | Option.none => rfl
      | some (iprp_data, e1) =>
        dsimp only
        have hm2 := findBoxLoop_content_le (meta_data.drop 4) iprpTag _ 0
          iprp_data e1 h1
        simp only [List.length_drop] at hm2
        refine Run.isFuelOut_bind_ok
          (findBoxLoop_no_fuelOut iprp_data ipcoTag _ 0 (by omega) (by omega))
          fun f2 h2 => ?_
        match f2 with
        | Option.none => rfl
        | some (ipco_data, e2) =>
          dsimp only
          have hm3 := findBoxLoop_content_le iprp_data ipcoTag _ 0
            ipco_data e2 h2
          refine Run.isFuelOut_bind_ok
            (findBoxLoop_no_fuelOut ipco_data ispeTag _ 0 (by omega) (by omega))
            fun f3 h3 => ?_
          match f3 with
          | Option.none => rfl
          | some (ispe_data, e3) =>
            dsimp only
            split
            · refine Run.isFuelOut_bind (rd_isFuelOut _ _) fun w0 => ?_
              refine Run.isFuelOut_bind (rd_isFuelOut _ _) fun w1 => ?_
              refine Run.isFuelOut_bind (rd_isFuelOut _ _) fun w2 => ?_
              refine Run.isFuelOut_bind (rd_isFuelOut _ _) fun w3 => ?_
              refine Run.isFuelOut_bind (rd_isFuelOut _ _) fun h0 => ?_
              refine Run.isFuelOut_bind (rd_isFuelOut _ _) fun h1 => ?_
              refine Run.isFuelOut_bind (rd_isFuelOut _ _) fun h2 => ?_
              refine Run.isFuelOut_bind (rd_isFuelOut _ _) fun h3 => ?_
              rfl
            · rfl
    · rfl

theorem for_format_eq {data : List Byte} {format : ImageFormat} {r : ProbeResult}
    (h : forFormatRun (data.length + 1) data format = .ok r) :
    ProbeResult.for_format data format = r := by
  unfold ProbeResult.for_format
  rw [h]

/-- C4 (amended): both probing loops have iteration counts bounded by
the input length — run with any fuel exceeding the input length,
neither the `find_box` box walk nor the `probe_jpeg` marker scan
exhausts its fuel.  The marker scan advances strictly on every
iteration it does not exit; the box walk never repeats a position,
but it does not always "advance strictly or return absent": a box
declaring a huge 64-bit size moves the wrapped position past the
input length and the following iteration exits by an out-of-bounds
panic rather than returning absent. -/
theorem probing_loops_bounded_by_input (data : List Byte) (t : BoxTag)
    (r : ProbeResult) (fuel pos : Nat) (h : data.length < fuel) :
    (findBoxLoop data t fuel pos).isFuelOut = false ∧
    (jpegLoop data r fuel pos).isFuelOut = false :=
  ⟨findBoxLoop_no_fuelOut data t fuel pos (by omega) (by omega),
   jpegLoop_no_fuelOut data r fuel pos (by omega)⟩

/-- Witness for C4 at a concrete input. -/
theorem probing_loops_bounded_witness :
    ([] : List Byte).length < 1 ∧
    ((findBoxLoop [] metaTag 1 0).isFuelOut = false ∧
     (jpegLoop [] ⟨.Jpeg, none, none, some false, some false, some 1, none, 0⟩
        1 2).isFuelOut = false) :=
  ⟨by decide,
   probing_loops_bounded_by_input [] metaTag
     ⟨.Jpeg, none, none, some false, some false, some 1, none, 0⟩ 1 2 (by decide)⟩

/-! ### Parser result invariants: dimensions come in pairs, and
`bytes_examined` stays within the input (except for AVIF) -/

set_option maxRecDepth 4000 in
theorem probe_png_inv {data : List Byte} {out : ProbeResult}
    (h : probe_png data = .ok out) :
    out.width.isSome = out.height.isSome ∧ out.bytes_examined ≤ data.length := by
  unfold probe_png at h
  split at h
  · injection h with h; subst h; exact ⟨rfl, Nat.min_le_left _ _⟩
  · rw [Run.bind_eq_ok] at h; obtain ⟨t0, -, h⟩ := h
    rw [Run.bind_eq_ok] at h; obtain ⟨t1, -, h⟩ := h
    rw [Run.bind_eq_ok] at h; obtain ⟨t2, -, h⟩ := h
    rw [Run.bind_eq_ok] at h; obtain ⟨t3, -, h⟩ := h
    split at h
    · injection h with h; subst h; exact ⟨rfl, Nat.min_le_left _ _⟩
    · rw [Run.bind_eq_ok] at h; obtain ⟨w0, -, h⟩ := h
      rw [Run.bind_eq_ok] at h; obtain ⟨w1, -, h⟩ := h
      rw [Run.bind_eq_ok] at h; obtain ⟨w2, -, h⟩ := h
      rw [Run.bind_eq_ok] at h; obtain ⟨w3, -, h⟩ := h
      rw [Run.bind_eq_ok] at h; obtain ⟨h0, -, h⟩ := h
      rw [Run.bind_eq_ok] at h; obtain ⟨h1, -, h⟩ := h
      rw [Run.bind_eq_ok] at h; obtain ⟨h2, -, h⟩ := h
      rw [Run.bind_eq_ok] at h; obtain ⟨h3, -, h⟩ := h
      rw [Run.bind_eq_ok] at h; obtain ⟨bd, -, h⟩ := h
      rw [Run.bind_eq_ok] at h; obtain ⟨ct, -, h⟩ := h
      injection h with h; subst h
      exact ⟨by simp only [Option.isSome_some], Nat.min_le_left _ _⟩

set_option maxRecDepth 4000 in
theorem probe_gif_inv {data : List Byte} {out : ProbeResult}
    (h : probe_gif data = .ok out) :
    out.width.isSome = out.height.isSome ∧ out.bytes_examined ≤ data.length := by
  unfold probe_gif at h
  split at h
  · injection h with h; subst h; exact ⟨rfl, Nat.min_le_left _ _⟩
  · rw [Run.bind_eq_ok] at h; obtain ⟨w0, -, h⟩ := h
    rw [Run.bind_eq_ok] at h; obtain ⟨w1, -, h⟩ := h
    rw [Run.bind_eq_ok] at h; obtain ⟨h0, -, h⟩ := h
    rw [Run.bind_eq_ok] at h; obtain ⟨h1, -, h⟩ := h
    injection h with h; subst h
    exact ⟨by simp only [Option.isSome_some], Nat.min_le_left _ _⟩

set_option maxRecDepth 4000 in
theorem probe_webp_inv {data : List Byte} {out : ProbeResult}
    (h : probe_webp data = .ok out) :
    out.width.isSome = out.height.isSome ∧ out.bytes_examined ≤ data.length := by
  unfold probe_webp at h
  split at h
  · injection h with h; subst h; exact ⟨rfl, Nat.min_le_left _ _⟩
  · rw [Run.bind_eq_ok] at h; obtain ⟨c0, -, h⟩ := h
    rw [Run.bind_eq_ok] at h; obtain ⟨c1, -, h⟩ := h
    rw [Run.bind_eq_ok] at h; obtain ⟨c2, -, h⟩ := h
    rw [Run.bind_eq_ok] at h; obtain ⟨c3, -, h⟩ := h
    split at h
    · split at h
      · injection h with h; subst h; exact ⟨rfl, Nat.min_le_left _ _⟩
      · rw [Run.bind_eq_ok] at h; obtain ⟨flags, -, h⟩ := h
        rw [Run.bind_eq_ok] at h; obtain ⟨w0, -, h⟩ := h
        rw [Run.bind_eq_ok] at h; obtain ⟨w1, -, h⟩ := h
        rw [Run.bind_eq_ok] at h; obtain ⟨w2, -, h⟩ := h
        rw [Run.bind_eq_ok] at h; obtain ⟨h0, -, h⟩ := h
        rw [Run.bind_eq_ok] at h; obtain ⟨h1, -, h⟩ := h
        rw [Run.bind_eq_ok] at h; obtain ⟨h2, -, h⟩ := h
        injection h with h; subst h
        exact ⟨by simp only [Option.isSome_some], Nat.min_le_left _ _⟩
    · split at h
      · split at h
        · injection h with h; subst h; exact ⟨rfl, Nat.min_le_left _ _⟩
        · split at h
          · rw [Run.bind_eq_ok] at h; obtain ⟨k0, -, h⟩ := h
            rw [Run.bind_eq_ok] at h; obtain ⟨k1, -, h⟩ := h
            rw [Run.bind_eq_ok] at h; obtain ⟨k2, -, h⟩ := h
            split at h
            · rw [Run.bind_eq_ok] at h; obtain ⟨w0, -, h⟩ := h
              rw [Run.bind_eq_ok] at h; obtain ⟨w1, -, h⟩ := h
              rw [Run.bind_eq_ok] at h; obtain ⟨h0, -, h⟩ := h
              rw [Run.bind_eq_ok] at h; obtain ⟨h1, -, h⟩ := h
              injection h with h; subst h
              exact ⟨by simp only [Option.isSome_some], Nat.min_le_left _ _⟩
            · injection h with h; subst h; exact ⟨rfl, Nat.min_le_left _ _⟩
          · injection h with h; subst h; exact ⟨rfl, Nat.min_le_left _ _⟩
      · split at h
        · split at h
          · injection h with h; subst h; exact ⟨rfl, Nat.min_le_left _ _⟩
          · rw [Run.bind_eq_ok] at h; obtain ⟨sig, -, h⟩ := h
            split at h
            · rw [Run.bind_eq_ok] at h; obtain ⟨b0, -, h⟩ := h
              rw [Run.bind_eq_ok] at h; obtain ⟨b1, -, h⟩ := h
              rw [Run.bind_eq_ok] at h; obtain ⟨b2, -, h⟩ := h
              rw [Run.bind_eq_ok] at h; obtain ⟨b3, -, h⟩ := h
              injection h with h; subst h
              exact ⟨by simp only [Option.isSome_some], Nat.min_le_left _ _⟩
            · injection h with h; subst h; exact ⟨rfl, Nat.min_le_left _ _⟩
        · injection h with h; subst h; exact ⟨rfl, Nat.min_le_left _ _⟩

set_option maxRecDepth 4000 in
theorem jpegLoop_inv (data : List Byte) (r : ProbeResult)
    (hr : r.width.isSome = r.height.isSome) :
    ∀ fuel pos out, jpegLoop data r fuel pos = .ok out →
      out.width.isSome = out.height.isSome ∧ out.bytes_examined ≤ data.length := by
  intro fuel
  induction fuel with
  | zero =>
    intro pos out h
    unfold jpegLoop at h
    split at h
    · exact absurd h (by simp)
    · injection h with h; subst h
      exact ⟨hr, Nat.min_le_right _ _⟩
  | succ fuel ih =>
    intro pos out h
    unfold jpegLoop at h
    split at h
    · rw [Run.bind_eq_ok] at h; obtain ⟨b0, -, h⟩ := h
      split at h
      · injection h with h; subst h
        exact ⟨hr, Nat.min_le_right _ _⟩
      · rw [Run.bind_eq_ok] at h; obtain ⟨p, -, h⟩ := h
        split at h
        · injection h with h; subst h
          exact ⟨hr, Nat.min_le_right _ _⟩
        · rw [Run.bind_eq_ok] at h; obtain ⟨mk, -, h⟩ := h
          dsimp only at h
          split at h
          · exact ih _ _ h
          · split at h
            · injection h with h; subst h
              exact ⟨hr, Nat.min_le_right _ _⟩
            · split at h
              · injection h with h; subst h
                exact ⟨hr, Nat.min_le_right _ _⟩
              · split at h
                · injection h with h; subst h
                  exact ⟨hr, Nat.min_le_right _ _⟩
                · rw [Run.bind_eq_ok] at h; obtain ⟨l0, -, h⟩ := h
                  rw [Run.bind_eq_ok] at h; obtain ⟨l1, -, h⟩ := h
                  split at h
                  · split at h
                    · rw [Run.bind_eq_ok] at h; obtain ⟨a0, -, h⟩ := h
                      rw [Run.bind_eq_ok] at h; obtain ⟨a1, -, h⟩ := h
                      rw [Run.bind_eq_ok] at h; obtain ⟨a2, -, h⟩ := h
                      rw [Run.bind_eq_ok] at h; obtain ⟨a3, -, h⟩ := h
                      rw [Run.bind_eq_ok] at h; obtain ⟨a4, -, h⟩ := h
                      injection h with h; subst h
                      refine ⟨by simp only [Option.isSome_some], ?_⟩
                      show p + 2 + 8 ≤ data.length
                      omega
                    · injection h with h; subst h
                      exact ⟨hr, Nat.min_le_right _ _⟩
                  · split at h
                    · injection h with h; subst h
                      exact ⟨hr, Nat.min_le_right _ _⟩
                    · exact ih _ _ h
    · injection h with h; subst h
      exact ⟨hr, Nat.min_le_right _ _⟩

theorem probe_jpeg_inv {fuel : Nat} {data : List Byte} {out : ProbeResult}
    (h : probe_jpeg fuel data = .ok out) :
    out.width.isSome = out.height.isSome ∧ out.bytes_examined ≤ data.length := by
  unfold probe_jpeg at h
  split at h
  · injection h with h; subst h; exact ⟨rfl, Nat.le_refl _⟩
  · exact jpegLoop_inv data _ rfl fuel 2 out h

set_option maxRecDepth 4000 in
theorem probe_avif_wh {fuel : Nat} {data : List Byte} {out : ProbeResult}
    (h : probe_avif fuel data = .ok out) :
    out.width.isSome = out.height.isSome := by
  unfold probe_avif at h
  rw [Run.bind_eq_ok] at h; obtain ⟨mfound, -, h⟩ := h
  match mfound with
  | Option.none =>
    injection h with h; subst h; rfl
  | some (meta_data, meta_end) =>
    dsimp only at h
    split at h
    · rw [Run.bind_eq_ok] at h; obtain ⟨f1, -, h⟩ := h
      match f1 with
      | Option.none => injection h with h; subst h; rfl
      | some (iprp_data, e1) =>
        dsimp only at h
        rw [Run.bind_eq_ok] at h; obtain ⟨f2, -, h⟩ := h
        match f2 with
        | Option.none => injection h with h; subst h; rfl
        | some (ipco_data, e2) =>
          dsimp only at h
          rw [Run.bind_eq_ok] at h; obtain ⟨f3, -, h⟩ := h
          match f3 with
          | Option.none => injection h with h; subst h; rfl
          | some (ispe_data, e3) =>
            dsimp only at h
            split at h
            · rw [Run.bind_eq_ok] at h; obtain ⟨w0, -, h⟩ := h
              rw [Run.bind_eq_ok] at h; obtain ⟨w1, -, h⟩ := h
              rw [Run.bind_eq_ok] at h; obtain ⟨w2, -, h⟩ := h
              rw [Run.bind_eq_ok] at h; obtain ⟨w3, -, h⟩ := h
              rw [Run.bind_eq_ok] at h; obtain ⟨h0, -, h⟩ := h
              rw [Run.bind_eq_ok] at h; obtain ⟨h1, -, h⟩ := h
              rw [Run.bind_eq_ok] at h; obtain ⟨h2, -, h⟩ := h
              rw [Run.bind_eq_ok] at h; obtain ⟨h3, -, h⟩ := h
              injection h with h; subst h
              simp only [Option.isSome_some]
            · injection h with h; subst h; rfl
    · injection h with h; subst h; rfl

/-- C2: for every input and every format, the probe result reports
width and height as an all-or-nothing pair:
`width.is_some() == height.is_some()`. -/
theorem probe_width_height_together (data : List Byte) (format : ImageFormat) :
    (ProbeResult.for_format data format).width.isSome =
      (ProbeResult.for_format data format).height.isSome := by
  unfold ProbeResult.for_format
  cases hout : forFormatRun (data.length + 1) data format with
  | panic => rfl
  | fuelOut => rfl
  | ok out =>
    show out.width.isSome = out.height.isSome
    cases format with
    | Png => exact (probe_png_inv hout).1
    | Gif => exact (probe_gif_inv hout).1
    | WebP => exact (probe_webp_inv hout).1
    | Jpeg => exact (probe_jpeg_inv hout).1
    | Avif => exact probe_avif_wh hout
    | Jxl =>
      injection hout with hout
      subst hout
      rfl

/-! ### C3: `bytes_examined` versus the input length -/

/-- C3 counterexample: probing the 8-byte input
`00 00 00 64 6D 65 74 61` (a `meta` box declaring size 100) as AVIF
yields `bytes_examined = 100`, which exceeds the input length 8:
`probe_avif` stores the `meta` box's declared end offset unclamped. -/
theorem probe_avif_bytes_examined_overrun :
    ¬ ((ProbeResult.for_format [0, 0, 0, 100, 0x6D, 0x65, 0x74, 0x61]
          ImageFormat.Avif).bytes_examined ≤
        ([0, 0, 0, 100, 0x6D, 0x65, 0x74, 0x61] : List Byte).length) := by
  decide

/-- C3 amended: for every input and every format other than AVIF, the
`bytes_examined` field of the probe result is at most the input
length. -/
theorem probe_bytes_examined_le_input (data : List Byte)
    (format : ImageFormat) (h : format ≠ ImageFormat.Avif) :
    (ProbeResult.for_format data format).bytes_examined ≤ data.length := by
  unfold ProbeResult.for_format
  cases hout : forFormatRun (data.length + 1) data format with
  | panic => exact Nat.zero_le _
  | fuelOut => exact Nat.zero_le _
  | ok out =>
    show out.bytes_examined ≤ data.length
    cases format with
    | Png => exact (probe_png_inv hout).2
    | Gif => exact (probe_gif_inv hout).2
    | WebP => exact (probe_webp_inv hout).2
    | Jpeg => exact (probe_jpeg_inv hout).2
    | Avif => exact absurd rfl h
    | Jxl =>
      injection hout with hout
      subst hout
      exact Nat.min_le_left _ _

/-- Witness for the amended C3 at a concrete input. -/
theorem probe_bytes_examined_le_input_witness :
    ImageFormat.Png ≠ ImageFormat.Avif ∧
    (ProbeResult.for_format [] ImageFormat.Png).bytes_examined ≤
      ([] : List Byte).length :=
  ⟨by decide, probe_bytes_examined_le_input [] ImageFormat.Png (by decide)⟩

/-! ### C5: the start-of-frame marker set and the scan behaviour -/

/-- C5 counterexample: the start-of-frame marker set recognised by
`probe_jpeg` does not have twelve members — it has thirteen
(`C0`–`C3`, `C5`–`C7`, `C9`–`CB`, `CD`–`CF`). -/
theorem sof_marker_count_not_twelve :
    ¬ (((List.range 256).filter fun m => is_sof m).length = 12) := by
  decide

set_option maxRecDepth 4096 in
/-- A start-of-frame marker byte is not a standalone marker, not SOS
and not EOI. -/
theorem is_sof_props : ∀ m : Byte, is_sof m.val = true →
    (¬ (m.val = 0x00 ∨ m.val = 0x01 ∨ (0xD0 ≤ m.val ∧ m.val ≤ 0xD7))) ∧
    m.val ≠ 0xDA ∧ m.val ≠ 0xD9 := by
  decide

/-- When the byte after the current position is not a padding `0xFF`,
the padding-skip loop leaves the position unchanged. -/
theorem skipPad_step (data : List Byte) (fuel pos : Nat)
    (hpos : pos + 1 < data.length)
    (hm : data.getD (pos + 1) 0 ≠ 0xFF) :
    skipPad data fuel pos = .ok pos := by
  cases fuel with
  | zero =>
    unfold skipPad
    rw [if_pos hpos, rd_eq_ok (by omega), Run.bind_ok, if_neg hm]
  | succ fuel =>
    unfold skipPad
    rw [if_pos hpos, rd_eq_ok (by omega), Run.bind_ok, if_neg hm]

/-- One scan step at a start-of-frame marker with enough bytes left:
the scanner returns with `bit_depth` the precision byte right after
the 2-byte length field, `height` the big-endian 16-bit value after
it, `width` the big-endian 16-bit value after that, and
`bytes_examined` just past the width; scanning stops. -/
theorem jpegLoop_sof_step (data : List Byte) (r : ProbeResult)
    (fuel pos : Nat)
    (hpos : pos + 1 < data.length)
    (hff : data.getD pos 0 = 0xFF)
    (hm : data.getD (pos + 1) 0 ≠ 0xFF)
    (hsof : is_sof (data.getD (pos + 1) 0).val = true)
    (hlen : pos + 9 < data.length) :
    jpegLoop data r (fuel + 1) pos = .ok { r with
      width := some (be16 (data.getD (pos + 2 + 5) 0) (data.getD (pos + 2 + 6) 0)),
      height := some (be16 (data.getD (pos + 2 + 3) 0) (data.getD (pos + 2 + 4) 0)),
      bit_depth := some (data.getD (pos + 2 + 2) 0).val,
      bytes_examined := pos + 2 + 8 } := by
  obtain ⟨hstand, hda, hd9⟩ := is_sof_props _ hsof
  unfold jpegLoop
  rw [if_pos hpos, rd_eq_ok (by omega), Run.bind_ok, hff,
    if_neg (by simp), skipPad_step data data.length pos hpos hm, Run.bind_ok,
    if_neg (by omega), rd_eq_ok (by omega), Run.bind_ok]
  dsimp only
  rw [if_neg hstand, if_neg hda, if_neg hd9, if_neg (by omega),
    rd_eq_ok (by omega), Run.bind_ok, rd_eq_ok (by omega), Run.bind_ok,
    if_pos hsof, if_pos (by omega : pos + 2 + 7 < data.length),
    rd_eq_ok (by omega), Run.bind_ok, rd_eq_ok (by omega), Run.bind_ok,
    rd_eq_ok (by omega), Run.bind_ok, rd_eq_ok (by omega), Run.bind_ok,
    rd_eq_ok (by omega), Run.bind_ok]

/-- One scan step at a length-carrying marker that is not
start-of-frame: the scanner skips exactly the declared segment
length and continues. -/
theorem jpegLoop_skip_step (data : List Byte) (r : ProbeResult)
    (fuel pos : Nat)
    (hpos : pos + 1 < data.length)
    (hff : data.getD pos 0 = 0xFF)
    (hm : data.getD (pos + 1) 0 ≠ 0xFF)
    (hstand : ¬ ((data.getD (pos + 1) 0).val = 0x00 ∨
        (data.getD (pos + 1) 0).val = 0x01 ∨
        (0xD0 ≤ (data.getD (pos + 1) 0).val ∧
         (data.getD (pos + 1) 0).val ≤ 0xD7)))
    (hda : (data.getD (pos + 1) 0).val ≠ 0xDA)
    (hd9 : (data.getD (pos + 1) 0).val ≠ 0xD9)
    (hnsof : is_sof (data.getD (pos + 1) 0).val = false)
    (hlen4 : pos + 4 ≤ data.length)
    (hseg : 2 ≤ be16 (data.getD (pos + 2) 0) (data.getD (pos + 2 + 1) 0)) :
    jpegLoop data r (fuel + 1) pos =
      jpegLoop data r fuel
        (pos + 2 + be16 (data.getD (pos + 2) 0) (data.getD (pos + 2 + 1) 0)) := by
  unfold jpegLoop
  rw [if_pos hpos, rd_eq_ok (by omega), Run.bind_ok, hff,
    if_neg (by simp), skipPad_step data data.length pos hpos hm, Run.bind_ok,
    if_neg (by omega), rd_eq_ok (by omega), Run.bind_ok]
  dsimp only
  rw [if_neg hstand, if_neg hda, if_neg hd9, if_neg (by omega),
    rd_eq_ok (by omega), Run.bind_ok, rd_eq_ok (by omega), Run.bind_ok,
    if_neg (by rw [hnsof]; exact Bool.false_ne_true),
    if_neg (by omega)]
  cases fuel <;> rfl

/-- C5 amended: the start-of-frame marker set of the JPEG scanner has
exactly thirteen members, and the scan behaves as specified: on a
start-of-frame marker with enough bytes remaining it returns the
precision byte after the 2-byte length field as `bit_depth`, the
following big-endian 16-bit values as `height` and then `width`, and
stops; on every other length-carrying marker it skips exactly the
declared length bytes and continues. -/
theorem jpeg_sof_scan_amended :
    (((List.range 256).filter fun m => is_sof m).length = 13) ∧
    (∀ (data : List Byte) (r : ProbeResult) (fuel pos : Nat),
      pos + 1 < data.length →
      data.getD pos 0 = 0xFF →
      data.getD (pos + 1) 0 ≠ 0xFF →
      is_sof (data.getD (pos + 1) 0).val = true →
      pos + 9 < data.length →
      jpegLoop data r (fuel + 1) pos = .ok { r with
        width := some (be16 (data.getD (pos + 2 + 5) 0) (data.getD (pos + 2 + 6) 0)),
        height := some (be16 (data.getD (pos + 2 + 3) 0) (data.getD (pos + 2 + 4) 0)),
        bit_depth := some (data.getD (pos + 2 + 2) 0).val,
        bytes_examined := pos + 2 + 8 }) ∧
    (∀ (data : List Byte) (r : ProbeResult) (fuel pos : Nat),
      pos + 1 < data.length →
      data.getD pos 0 = 0xFF →
      data.getD (pos + 1) 0 ≠ 0xFF →
      (¬ ((data.getD (pos + 1) 0).val = 0x00 ∨
          (data.getD (pos + 1) 0).val = 0x01 ∨
          (0xD0 ≤ (data.getD (pos + 1) 0).val ∧
           (data.getD (pos + 1) 0).val ≤ 0xD7))) →
      (data.getD (pos + 1) 0).val ≠ 0xDA →
      (data.getD (pos + 1) 0).val ≠ 0xD9 →
      is_sof (data.getD (pos + 1) 0).val = false →
      pos + 4 ≤ data.length →
      2 ≤ be16 (data.getD (pos + 2) 0) (data.getD (pos + 2 + 1) 0) →
      jpegLoop data r (fuel + 1) pos =
        jpegLoop data r fuel
          (pos + 2 + be16 (data.getD (pos + 2) 0) (data.getD (pos + 2 + 1) 0))) :=
  ⟨by decide,
   fun data r fuel pos h1 h2 h3 h4 h5 =>
     jpegLoop_sof_step data r fuel pos h1 h2 h3 h4 h5,
   fun data r fuel pos h1 h2 h3 h4 h5 h6 h7 h8 h9 =>
     jpegLoop_skip_step data r fuel pos h1 h2 h3 h4 h5 h6 h7 h8 h9⟩

/-- Witness for the amended C5 at concrete inputs: an SOF0 segment is
read (precision 8, height 480, width 640 encoded at the stated
offsets) and an APP0 segment of declared length 4 is skipped. -/
theorem jpeg_sof_scan_amended_witness :
    (((List.range 256).filter fun m => is_sof m).length = 13) ∧
    (jpegLoop [255, 216, 255, 192, 0, 17, 8, 1, 224, 2, 128, 0]
      ⟨.Jpeg, none, none, some false, some false, some 1, none, 0⟩ (0 + 1) 2 =
      .ok { (⟨.Jpeg, none, none, some false, some false, some 1, none, 0⟩ : ProbeResult) with
        width := some (be16 (([255, 216, 255, 192, 0, 17, 8, 1, 224, 2, 128, 0] : List Byte).getD (2 + 2 + 5) 0)
          (([255, 216, 255, 192, 0, 17, 8, 1, 224, 2, 128, 0] : List Byte).getD (2 + 2 + 6) 0)),
        height := some (be16 (([255, 216, 255, 192, 0, 17, 8, 1, 224, 2, 128, 0] : List Byte).getD (2 + 2 + 3) 0)
          (([255, 216, 255, 192, 0, 17, 8, 1, 224, 2, 128, 0] : List Byte).getD (2 + 2 + 4) 0)),
        bit_depth := some (([255, 216, 255, 192, 0, 17, 8, 1, 224, 2, 128, 0] : List Byte).getD (2 + 2 + 2) 0).val,
        bytes_examined := 2 + 2 + 8 }) ∧
    (jpegLoop [255, 216, 255, 224, 0, 4, 0, 0]
      ⟨.Jpeg, none, none, some false, some false, some 1, none, 0⟩ (0 + 1) 2 =
      jpegLoop [255, 216, 255, 224, 0, 4, 0, 0]
        ⟨.Jpeg, none, none, some false, some false, some 1, none, 0⟩ 0
        (2 + 2 + be16 (([255, 216, 255, 224, 0, 4, 0, 0] : List Byte).getD (2 + 2) 0)
          (([255, 216, 255, 224, 0, 4, 0, 0] : List Byte).getD (2 + 2 + 1) 0))) :=
  ⟨jpeg_sof_scan_amended.1,
   jpeg_sof_scan_amended.2.1 [255, 216, 255, 192, 0, 17, 8, 1, 224, 2, 128, 0]
     ⟨.Jpeg, none, none, some false, some false, some 1, none, 0⟩ 0 2
     (by decide) (by decide) (by decide) (by decide) (by decide),
   jpeg_sof_scan_amended.2.2 [255, 216, 255, 224, 0, 4, 0, 0]
     ⟨.Jpeg, none, none, some false, some false, some 1, none, 0⟩ 0 2
     (by decide) (by decide) (by decide) (by decide) (by decide) (by decide)
     (by decide) (by decide) (by decide)⟩

/-! ### C7: the WebP VP8X branch -/

/-- Bitwise-or of byte-aligned disjoint fields is their sum: the
24-bit little-endian read `a | (b << 8) | (c << 16)` equals
`a + 256·b + 65536·c` when `a` and `b` are bytes. -/
theorem le24_lor (a b c : Nat) (ha : a < 256) (hb : b < 256) :
    a ||| (b <<< 8) ||| (c <<< 16) = a + 256 * b + 65536 * c := by
  have e8 : (2 : Nat) ^ 8 = 256 := by norm_num
  have e16 : (2 : Nat) ^ 16 = 65536 := by norm_num
  have h1 : a ||| (b <<< 8) = 256 * b + a := by
    rw [Nat.shiftLeft_eq, e8, Nat.lor_comm, Nat.mul_comm b 256]
    have h := Nat.mul_add_lt_is_or (show a < 2 ^ 8 by rw [e8]; exact ha) b
    rw [e8] at h
    exact h.symm
  have h2 : 256 * b + a < 65536 := by omega
  rw [h1, Nat.shiftLeft_eq, e16, Nat.lor_comm, Nat.mul_comm c 65536]
  have h := Nat.mul_add_lt_is_or (show 256 * b + a < 2 ^ 16 by rw [e16]; exact h2) c
  rw [e16] at h
  omega

/-- The result of `probe_webp` on a VP8X input of at least 30 bytes,
with the canvas fields still in the source's or-shift form. -/
theorem probe_webp_vp8x_run (data : List Byte)
    (hlen : 30 ≤ data.length)
    (h12 : data.getD 12 0 = 0x56) (h13 : data.getD 13 0 = 0x50)
    (h14 : data.getD 14 0 = 0x38) (h15 : data.getD 15 0 = 0x58) :
    probe_webp data = .ok
      { format := .WebP,
        width := some (((data.getD 24 0).val ||| ((data.getD 25 0).val <<< 8) |||
          ((data.getD 26 0).val <<< 16)) + 1),
        height := some (((data.getD 27 0).val ||| ((data.getD 28 0).val <<< 8) |||
          ((data.getD 29 0).val <<< 16)) + 1),
        has_alpha := some (decide ((data.getD 20 0).val &&& 0x10 ≠ 0)),
        has_animation := some (decide ((data.getD 20 0).val &&& 0x02 ≠ 0)),
        frame_count := none,
        bit_depth := some 8,
        bytes_examined := min data.length 30 } := by
  unfold probe_webp
  rw [if_neg (by omega), rd_eq_ok (by omega), Run.bind_ok,
    rd_eq_ok (by omega), Run.bind_ok, rd_eq_ok (by omega), Run.bind_ok,
    rd_eq_ok (by omega), Run.bind_ok, if_pos ⟨h12, h13, h14, h15⟩,
    if_neg (by omega), rd_eq_ok (by omega), Run.bind_ok,
    rd_eq_ok (by omega), Run.bind_ok, rd_eq_ok (by omega), Run.bind_ok,
    rd_eq_ok (by omega), Run.bind_ok, rd_eq_ok (by omega), Run.bind_ok,
    rd_eq_ok (by omega), Run.bind_ok, rd_eq_ok (by omega), Run.bind_ok]

/-- C7: on any input of at least 30 bytes whose chunk tag at offset
12 is `VP8X`, the WebP probe reports width and height as the 24-bit
little-endian values at offsets 24 and 27 plus one, alpha exactly
when bit `0x10` of the flags byte at offset 20 is set, and animation
exactly when bit `0x02` of that byte is set. -/
theorem webp_vp8x_fields (data : List Byte)
    (hlen : 30 ≤ data.length)
    (h12 : data.getD 12 0 = 0x56) (h13 : data.getD 13 0 = 0x50)
    (h14 : data.getD 14 0 = 0x38) (h15 : data.getD 15 0 = 0x58) :
    (ProbeResult.for_format data ImageFormat.WebP).width =
      some ((data.getD 24 0).val + 256 * (data.getD 25 0).val +
        65536 * (data.getD 26 0).val + 1) ∧
    (ProbeResult.for_format data ImageFormat.WebP).height =
      some ((data.getD 27 0).val + 256 * (data.getD 28 0).val +
        65536 * (data.getD 29 0).val + 1) ∧
    (ProbeResult.for_format data ImageFormat.WebP).has_alpha =
      some (decide ((data.getD 20 0).val &&& 0x10 ≠ 0)) ∧
    (ProbeResult.for_format data ImageFormat.WebP).has_animation =
      some (decide ((data.getD 20 0).val &&& 0x02 ≠ 0)) := by
  have hrun := probe_webp_vp8x_run data hlen h12 h13 h14 h15
  rw [for_format_eq
    (show forFormatRun (data.length + 1) data ImageFormat.WebP = _ from hrun)]
  rw [le24_lor _ _ _ (Fin.is_lt _) (Fin.is_lt _),
    le24_lor _ _ _ (Fin.is_lt _) (Fin.is_lt _)]
  exact ⟨rfl, rfl, rfl, rfl⟩

/-- A concrete VP8X sample: `RIFF….WEBP`, `VP8X` at offset 12, flags
`0x12` (alpha and animation bits), stored canvas 639×479. -/
def vp8xSample : List Byte :=
  [82, 73, 70, 70, 0, 0, 0, 0, 87, 69, 66, 80, 86, 80, 56, 88,
   0, 0, 0, 0, 0x12, 0, 0, 0, 0x7F, 0x02, 0x00, 0xDF, 0x01, 0x00]

/-- Witness for C7: flags `0x12` with stored 639×479 yields width
640, height 480, alpha true, animation true. -/
theorem webp_vp8x_fields_witness :
    30 ≤ vp8xSample.length ∧
    (ProbeResult.for_format vp8xSample ImageFormat.WebP).width = some 640 ∧
    (ProbeResult.for_format vp8xSample ImageFormat.WebP).height = some 480 ∧
    (ProbeResult.for_format vp8xSample ImageFormat.WebP).has_alpha = some true ∧
    (ProbeResult.for_format vp8xSample ImageFormat.WebP).has_animation = some true := by
  have h := webp_vp8x_fields vp8xSample (by decide) (by decide) (by decide)
    (by decide) (by decide)
  exact ⟨by decide, h.1.trans (by decide), h.2.1.trans (by decide),
    h.2.2.1.trans (by decide), h.2.2.2.trans (by decide)⟩

/-! ### C8: the PNG parser -/

/-- The result of `probe_png` on an input of at least 33 bytes whose
tag at offset 12 is `IHDR`. -/
theorem probe_png_ihdr_run (data : List Byte)
    (hlen : 33 ≤ data.length)
    (h12 : data.getD 12 0 = 0x49) (h13 : data.getD 13 0 = 0x48)
    (h14 : data.getD 14 0 = 0x44) (h15 : data.getD 15 0 = 0x52) :
    probe_png data = .ok
      { format := .Png,
        width := some (be32 (data.getD 16 0) (data.getD 17 0)
          (data.getD 18 0) (data.getD 19 0)),
        height := some (be32 (data.getD 20 0) (data.getD 21 0)
          (data.getD 22 0) (data.getD 23 0)),
        has_alpha := some (decide ((data.getD 25 0).val = 4 ∨ (data.getD 25 0).val = 6)),
        has_animation := none,
        frame_count := none,
        bit_depth := some (data.getD 24 0).val,
        bytes_examined := min data.length 33 } := by
  unfold probe_png
  rw [if_neg (by omega), rd_eq_ok (by omega), Run.bind_ok,
    rd_eq_ok (by omega), Run.bind_ok, rd_eq_ok (by omega), Run.bind_ok,
    rd_eq_ok (by omega), Run.bind_ok,
    if_neg (not_not_intro ⟨h12, h13, h14, h15⟩),
    rd_eq_ok (by omega), Run.bind_ok, rd_eq_ok (by omega), Run.bind_ok,
    rd_eq_ok (by omega), Run.bind_ok, rd_eq_ok (by omega), Run.bind_ok,
    rd_eq_ok (by omega), Run.bind_ok, rd_eq_ok (by omega), Run.bind_ok,
    rd_eq_ok (by omega), Run.bind_ok, rd_eq_ok (by omega), Run.bind_ok,
    rd_eq_ok (by omega), Run.bind_ok, rd_eq_ok (by omega), Run.bind_ok]

/-- The result of `probe_png` when the input is short or the tag at
offset 12 is not `IHDR`: format-only. -/
theorem probe_png_missing_run (data : List Byte)
    (h : data.length < 33 ∨
      ¬ (data.getD 12 0 = 0x49 ∧ data.getD 13 0 = 0x48 ∧
         data.getD 14 0 = 0x44 ∧ data.getD 15 0 = 0x52)) :
    probe_png data = .ok
      { format := .Png, width := none, height := none, has_alpha := none,
        has_animation := none, frame_count := none, bit_depth := none,
        bytes_examined := min data.length 33 } := by
  unfold probe_png
  by_cases hl : data.length < 33
  · rw [if_pos hl]
  · rcases h with h | h
    · exact absurd h hl
    · rw [if_neg hl, rd_eq_ok (by omega), Run.bind_ok,
        rd_eq_ok (by omega), Run.bind_ok, rd_eq_ok (by omega), Run.bind_ok,
        rd_eq_ok (by omega), Run.bind_ok, if_pos h]

/-- C8: with at least 33 bytes and `IHDR` at offset 12 the PNG probe
reports width and height as the big-endian 32-bit values at offsets
16 and 20, bit depth as the byte at 24, and alpha true exactly when
the colour type at 25 is 4 or 6; on short input or a different tag
the result is format-only; animation is always left absent. -/
theorem png_ihdr_fields (data : List Byte) :
    (33 ≤ data.length →
      data.getD 12 0 = 0x49 → data.getD 13 0 = 0x48 →
      data.getD 14 0 = 0x44 → data.getD 15 0 = 0x52 →
      (ProbeResult.for_format data ImageFormat.Png).width =
        some (be32 (data.getD 16 0) (data.getD 17 0)
          (data.getD 18 0) (data.getD 19 0)) ∧
      (ProbeResult.for_format data ImageFormat.Png).height =
        some (be32 (data.getD 20 0) (data.getD 21 0)
          (data.getD 22 0) (data.getD 23 0)) ∧
      (ProbeResult.for_format data ImageFormat.Png).bit_depth =
        some (data.getD 24 0).val ∧
      ((ProbeResult.for_format data ImageFormat.Png).has_alpha = some true ↔
        ((data.getD 25 0).val = 4 ∨ (data.getD 25 0).val = 6))) ∧
    ((data.length < 33 ∨
      ¬ (data.getD 12 0 = 0x49 ∧ data.getD 13 0 = 0x48 ∧
         data.getD 14 0 = 0x44 ∧ data.getD 15 0 = 0x52)) →
      (ProbeResult.for_format data ImageFormat.Png).format = ImageFormat.Png ∧
      (ProbeResult.for_format data ImageFormat.Png).width = none ∧
      (ProbeResult.for_format data ImageFormat.Png).height = none) ∧
    (ProbeResult.for_format data ImageFormat.Png).has_animation = none := by
  refine ⟨?_, ?_, ?_⟩
  · intro hlen h12 h13 h14 h15
    have hrun := probe_png_ihdr_run data hlen h12 h13 h14 h15
    rw [for_format_eq
      (show forFormatRun (data.length + 1) data ImageFormat.Png = _ from hrun)]
    refine ⟨rfl, rfl, rfl, ?_⟩
    simp only [Option.some.injEq, decide_eq_true_eq]
  · intro h
    have hrun := probe_png_missing_run data h
    rw [for_format_eq
      (show forFormatRun (data.length + 1) data ImageFormat.Png = _ from hrun)]
    exact ⟨rfl, rfl, rfl⟩
  · by_cases hcase : data.length < 33 ∨
      ¬ (data.getD 12 0 = 0x49 ∧ data.getD 13 0 = 0x48 ∧
         data.getD 14 0 = 0x44 ∧ data.getD 15 0 = 0x52)
    · have hrun := probe_png_missing_run data hcase
      rw [for_format_eq
        (show forFormatRun (data.length + 1) data ImageFormat.Png = _ from hrun)]
    · push_neg at hcase
      obtain ⟨hlen, htag⟩ := hcase
      obtain ⟨h12, h13, h14, h15⟩ := htag
      have hrun := probe_png_ihdr_run data (by omega) h12 h13 h14 h15
      rw [for_format_eq
        (show forFormatRun (data.length + 1) data ImageFormat.Png = _ from hrun)]

/-- Witness for C8: a 33-byte RGBA IHDR (100×50, depth 8, colour
type 6) recovers its fields, and a 1-byte input is format-only. -/
theorem png_ihdr_fields_witness :
    ((ProbeResult.for_format
        [0x89, 0x50, 0x4E, 0x47, 0x0D, 0x0A, 0x1A, 0x0A, 0, 0, 0, 13,
         0x49, 0x48, 0x44, 0x52, 0, 0, 0, 100, 0, 0, 0, 50, 8, 6,
         0, 0, 0, 0, 0, 0, 0] ImageFormat.Png).width = some 100 ∧
     (ProbeResult.for_format
        [0x89, 0x50, 0x4E, 0x47, 0x0D, 0x0A, 0x1A, 0x0A, 0, 0, 0, 13,
         0x49, 0x48, 0x44, 0x52, 0, 0, 0, 100, 0, 0, 0, 50, 8, 6,
         0, 0, 0, 0, 0, 0, 0] ImageFormat.Png).height = some 50 ∧
     (ProbeResult.for_format
        [0x89, 0x50, 0x4E, 0x47, 0x0D, 0x0A, 0x1A, 0x0A, 0, 0, 0, 13,
         0x49, 0x48, 0x44, 0x52, 0, 0, 0, 100, 0, 0, 0, 50, 8, 6,
         0, 0, 0, 0, 0, 0, 0] ImageFormat.Png).has_alpha = some true) ∧
    ((ProbeResult.for_format [0x89] ImageFormat.Png).width = none ∧
     (ProbeResult.for_format [0x89] ImageFormat.Png).height = none) := by
  have hpos := (png_ihdr_fields
    [0x89, 0x50, 0x4E, 0x47, 0x0D, 0x0A, 0x1A, 0x0A, 0, 0, 0, 13,
     0x49, 0x48, 0x44, 0x52, 0, 0, 0, 100, 0, 0, 0, 50, 8, 6,
     0, 0, 0, 0, 0, 0, 0]).1 (by decide) (by decide) (by decide)
    (by decide) (by decide)
  have hneg := (png_ihdr_fields [0x89]).2.1 (Or.inl (by decide))
  exact ⟨⟨hpos.1.trans (by decide), hpos.2.1.trans (by decide),
    hpos.2.2.2.mpr (by decide)⟩, hneg.2.1, hneg.2.2⟩

/-! ### C10: the GIF parser performs no signature validation -/

/-- C10: for any input of at least 13 bytes — whatever its first six
bytes are — probing with an asserted GIF format reports width and
height from the little-endian 16-bit values at offsets 6 and 8,
alpha true and bit depth 8: a wrongly asserted GIF format fabricates
dimensions from arbitrary bytes instead of leaving them absent. -/
theorem gif_no_signature_validation (data : List Byte)
    (hlen : 13 ≤ data.length) :
    (probe_format data ImageFormat.Gif).width =
      some (le16 (data.getD 6 0) (data.getD 7 0)) ∧
    (probe_format data ImageFormat.Gif).height =
      some (le16 (data.getD 8 0) (data.getD 9 0)) ∧
    (probe_format data ImageFormat.Gif).has_alpha = some true ∧
    (probe_format data ImageFormat.Gif).bit_depth = some 8 := by
  have hrun : probe_gif data = .ok
      { format := .Gif,
        width := some (le16 (data.getD 6 0) (data.getD 7 0)),
        height := some (le16 (data.getD 8 0) (data.getD 9 0)),
        has_alpha := some true,
        has_animation := none,
        frame_count := none,
        bit_depth := some 8,
        bytes_examined := min data.length 13 } := by
    unfold probe_gif
    rw [if_neg (by omega), rd_eq_ok (by omega), Run.bind_ok,
      rd_eq_ok (by omega), Run.bind_ok, rd_eq_ok (by omega), Run.bind_ok,
      rd_eq_ok (by omega), Run.bind_ok]
  unfold probe_format
  rw [for_format_eq
    (show forFormatRun (data.length + 1) data ImageFormat.Gif = _ from hrun)]
  exact ⟨rfl, rfl, rfl, rfl⟩

/-- Witness for C10: thirteen bytes starting with the PNG signature
(not a GIF signature; the format detector reports PNG) still get GIF
dimensions fabricated from offsets 6 and 8. -/
theorem gif_no_signature_validation_witness :
    ImageFormat.detect
      [0x89, 0x50, 0x4E, 0x47, 0x0D, 0x0A, 0x1A, 0x0A, 0, 0, 64, 0, 0] =
      some ImageFormat.Png ∧
    (probe_format [0x89, 0x50, 0x4E, 0x47, 0x0D, 0x0A, 0x1A, 0x0A, 0, 0, 64, 0, 0]
      ImageFormat.Gif).width = some 2586 ∧
    (probe_format [0x89, 0x50, 0x4E, 0x47, 0x0D, 0x0A, 0x1A, 0x0A, 0, 0, 64, 0, 0]
      ImageFormat.Gif).has_alpha = some true := by
  have h := gif_no_signature_validation
    [0x89, 0x50, 0x4E, 0x47, 0x0D, 0x0A, 0x1A, 0x0A, 0, 0, 64, 0, 0] (by decide)
  exact ⟨by decide, h.1.trans (by decide), h.2.2.1⟩

/-! ### C9: failure modes of the detecting entry point -/

/-- C9 (code_bug): the two claimed failure modes are not the only
ones.  On `registryPanicSample` the format detector reports AVIF from
genuine `ftypavif` magic, the full registry accepts it, and
`probe_with_registry` then panics inside `probe_avif` — it returns
neither `Ok` nor one of the two error values. -/
theorem probe_with_registry_third_failure :
    ImageFormat.detect registryPanicSample = some ImageFormat.Avif ∧
    CodecRegistry.all.can_decode ImageFormat.Avif = true ∧
    (probe_with_registry (registryPanicSample.length + 1) registryPanicSample
      CodecRegistry.all).isPanic = true := by
  refine ⟨by decide, by decide, by decide⟩


/-! ### C6: the AVIF box chain -/

/-- C6 (amended): `probe_avif` derives dimensions only from the full
`meta → iprp → ipco → ispe` chain: whenever it returns a result,
either the chain was fully located (with 4 version/flags bytes
skipped after the `meta` header and at least 12 bytes of `ispe`
content) and width/height are exactly the big-endian 32-bit values
at offsets 4 and 8 of the `ispe` content, or width and height are
both absent — never derived from any other box.  The original
claim's "still returned as a value, never an error" clause is
refuted separately: on crafted extended-size boxes `probe_avif`
panics instead of returning. -/
theorem probe_avif_chain_characterization :
    ∀ (data : List Byte) (fuel : Nat) (out : ProbeResult),
      probe_avif fuel data = .ok out →
      (∃ meta mEnd, findBoxLoop data metaTag fuel 0 = .ok (some (meta, mEnd)) ∧
        4 ≤ meta.length ∧
        ∃ iprp iEnd,
          findBoxLoop (meta.drop 4) iprpTag fuel 0 = .ok (some (iprp, iEnd)) ∧
        ∃ ipco cEnd,
          findBoxLoop iprp ipcoTag fuel 0 = .ok (some (ipco, cEnd)) ∧
        ∃ ispe sEnd,
          findBoxLoop ipco ispeTag fuel 0 = .ok (some (ispe, sEnd)) ∧
          12 ≤ ispe.length ∧
          out.width = some (be32 (ispe.getD 4 0) (ispe.getD 5 0)
            (ispe.getD 6 0) (ispe.getD 7 0)) ∧
          out.height = some (be32 (ispe.getD 8 0) (ispe.getD 9 0)
            (ispe.getD 10 0) (ispe.getD 11 0))) ∨
      (out.width = Option.none ∧ out.height = Option.none) := by
  intro data fuel out h
  unfold probe_avif at h
  rw [Run.bind_eq_ok] at h
  obtain ⟨mfound, hm, h⟩ := h
  match mfound with
  | Option.none =>
    injection h with h; subst h
    exact Or.inr ⟨rfl, rfl⟩
  | some (meta_data, meta_end) =>
    dsimp only at h
    split at h
    · rw [Run.bind_eq_ok] at h
      obtain ⟨f1, h1, h⟩ := h
      match f1 with
      | Option.none =>
        injection h with h; subst h
        exact Or.inr ⟨rfl, rfl⟩
      | some (iprp_data, e1) =>
        dsimp only at h
        rw [Run.bind_eq_ok] at h
        obtain ⟨f2, h2, h⟩ := h
        match f2 with
        | Option.none =>
          injection h with h; subst h
          exact Or.inr ⟨rfl, rfl⟩
        | some (ipco_data, e2) =>
          dsimp only at h
          rw [Run.bind_eq_ok] at h
          obtain ⟨f3, h3, h⟩ := h
          match f3 with
          | Option.none =>
            injection h with h; subst h
            exact Or.inr ⟨rfl, rfl⟩
          | some (ispe_data, e3) =>
            dsimp only at h
            split at h
            · rw [rd_eq_ok (by omega), Run.bind_ok,
                rd_eq_ok (by omega), Run.bind_ok,
                rd_eq_ok (by omega), Run.bind_ok,
                rd_eq_ok (by omega), Run.bind_ok,
                rd_eq_ok (by omega), Run.bind_ok,
                rd_eq_ok (by omega), Run.bind_ok,
                rd_eq_ok (by omega), Run.bind_ok,
                rd_eq_ok (by omega), Run.bind_ok] at h
              injection h with h; subst h
              refine Or.inl ⟨meta_data, meta_end, hm, by assumption,
                iprp_data, e1, h1, ipco_data, e2, h2, ispe_data, e3, h3,
                by assumption, rfl, rfl⟩
            · injection h with h; subst h
              exact Or.inr ⟨rfl, rfl⟩
    · injection h with h; subst h
      exact Or.inr ⟨rfl, rfl⟩

/-- Witness for C6 at a concrete input: an 8-byte `meta`-only input
(no `iprp`/`ipco`/`ispe`) yields a result with both dimensions
absent. -/
theorem probe_avif_chain_characterization_witness :
    ((∃ meta mEnd,
        findBoxLoop [0, 0, 0, 100, 0x6D, 0x65, 0x74, 0x61] metaTag 9 0 =
          .ok (some (meta, mEnd)) ∧
        4 ≤ meta.length ∧
        ∃ iprp iEnd,
          findBoxLoop (meta.drop 4) iprpTag 9 0 = .ok (some (iprp, iEnd)) ∧
        ∃ ipco cEnd,
          findBoxLoop iprp ipcoTag 9 0 = .ok (some (ipco, cEnd)) ∧
        ∃ ispe sEnd,
          findBoxLoop ipco ispeTag 9 0 = .ok (some (ispe, sEnd)) ∧
          12 ≤ ispe.length ∧
          (⟨ImageFormat.Avif, Option.none, Option.none, Option.none,
            Option.none, Option.none, Option.none, 100⟩ : ProbeResult).width =
            some (be32 (ispe.getD 4 0) (ispe.getD 5 0)
              (ispe.getD 6 0) (ispe.getD 7 0)) ∧
          (⟨ImageFormat.Avif, Option.none, Option.none, Option.none,
            Option.none, Option.none, Option.none, 100⟩ : ProbeResult).height =
            some (be32 (ispe.getD 8 0) (ispe.getD 9 0)
              (ispe.getD 10 0) (ispe.getD 11 0))) ∨
      ((⟨ImageFormat.Avif, Option.none, Option.none, Option.none,
          Option.none, Option.none, Option.none, 100⟩ : ProbeResult).width =
          Option.none ∧
        (⟨ImageFormat.Avif, Option.none, Option.none, Option.none,
          Option.none, Option.none, Option.none, 100⟩ : ProbeResult).height =
          Option.none)) :=
  probe_avif_chain_characterization [0, 0, 0, 100, 0x6D, 0x65, 0x74, 0x61] 9
    ⟨ImageFormat.Avif, Option.none, Option.none, Option.none,
      Option.none, Option.none, Option.none, 100⟩ (by decide)

/-- A concrete AVIF sample: `ftyp` box, then a `meta` box holding
`iprp` → `ipco` → `ispe` with width 1920 and height 1080. -/
def avifSample : List Byte :=
  [0, 0, 0, 16, 0x66, 0x74, 0x79, 0x70, 0x61, 0x76, 0x69, 0x66, 0, 0, 0, 0,
   0, 0, 0, 48, 0x6D, 0x65, 0x74, 0x61, 0, 0, 0, 0,
   0, 0, 0, 36, 0x69, 0x70, 0x72, 0x70,
   0, 0, 0, 28, 0x69, 0x70, 0x63, 0x6F,
   0, 0, 0, 20, 0x69, 0x73, 0x70, 0x65, 0, 0, 0, 0, 0, 0, 7, 128, 0, 0, 4, 56]

/-- The spec's AVIF example: the `ftyp`+`meta`(`iprp`→`ipco`→`ispe`)
construction encoding 1920×1080 recovers those values exactly. -/
theorem probe_avif_sample_dimensions :
    (ProbeResult.for_format avifSample ImageFormat.Avif).width = some 1920 ∧
    (ProbeResult.for_format avifSample ImageFormat.Avif).height = some 1080 ∧
    (ProbeResult.for_format avifSample ImageFormat.Avif).bytes_examined = 64 := by
  refine ⟨by decide, by decide, by decide⟩

end Zencodecs
